import Mathlib

/-!
Shallow embedding of the payer-resolution core of the payments backend
(`app/payin/core/payer/processor.py`, `app/payin/api/payer/v1/api.py`,
`app/payin/repository/payment_method_repo.py`,
`app/payin/core/payment_method/model.py`), together with the repository
functions of `app/payin/repository/payer_repo.py` that the processor calls.

Database rows are Lean structures; the two relational stores are lists of
rows inside a `World` state.  Stateful Python code becomes explicit state
passing through the `M` monad (`World → Except Err α × World`); a Python
`raise` is `Except.error`, `try/except DataError` is `tryCatchData`.
Database and gateway calls append observation `Event`s to the world's
trace, and a fault oracle (`World.failsOn`) decides which database /
gateway calls raise, modelling `asyncpg.DataError` and gateway exceptions.
-/

/-- Payin error codes used by the payer flows (from `app/payin/core/exceptions.py`,
referenced throughout `processor.py` and `api.py`). -/
inductive PayinErrorCode where
  | PAYER_READ_DB_ERROR
  | PAYER_READ_INVALID_DATA
  | PAYER_READ_NOT_FOUND
  | PAYER_CREATE_INVALID_DATA
  | PAYER_CREATE_STRIPE_ERROR
  | PAYER_CREATE_PAYER_ALREADY_EXIST
  | PAYER_UPDATE_STRIPE_ERROR
  | PAYMENT_METHOD_GET_NOT_FOUND
  deriving DecidableEq, Repr

/-- Exceptions that can propagate in the embedded payer flows.
`dataError` is `asyncpg.DataError`; `stripeError` is a raw gateway exception;
`valueError` is Python's `ValueError` (e.g. from `int(...)`);
`unboundLocal` is Python's `UnboundLocalError` (a local read before any
assignment); `payerCreation` / `payerRead` / `payerUpdate` /
`paymentMethodRead` are the typed domain errors carrying a code and a
`retryable` flag; `paymentException` is the transport-level error raised by
the API layer with an HTTP status. -/
inductive Err where
  | dataError
  | stripeError
  | valueError
  | unboundLocal
  | payerCreation (code : PayinErrorCode) (retryable : Bool)
  | payerRead (code : PayinErrorCode) (retryable : Bool)
  | payerUpdate (code : PayinErrorCode) (retryable : Bool)
  | paymentMethodRead (code : PayinErrorCode) (retryable : Bool)
  | paymentException (status : Nat) (code : PayinErrorCode) (retryable : Bool)
  deriving DecidableEq, Repr

/-- Observation of one database or gateway call: `dbRead t` / `dbWrite t`
record a query against table `t`, `gatewayCall op` records a call to the
payment gateway operation `op`. -/
inductive Event where
  | dbRead (table : String)
  | dbWrite (table : String)
  | gatewayCall (op : String)
  deriving DecidableEq, Repr

/-- Check whether an event is a database write. -/
def Event.isWrite : Event → Bool
  | .dbWrite _ => true
  | _ => false

/-- Check whether an event is a database read. -/
def Event.isRead : Event → Bool
  | .dbRead _ => true
  | _ => false

/-- Decidable equality for `Except`, used to evaluate concrete runs. -/
instance {e a : Type} [DecidableEq e] [DecidableEq a] :
    DecidableEq (Except e a) := fun x y =>
  match x, y with
  | .ok u, .ok v =>
    if h : u = v then .isTrue (by rw [h]) else .isFalse (by simp [h])
  | .error u, .error v =>
    if h : u = v then .isTrue (by rw [h]) else .isFalse (by simp [h])
  | .ok _, .error _ => .isFalse (by simp)
  | .error _, .ok _ => .isFalse (by simp)

/-- Row of the `payers` table (current schema), from
`PayerDbEntity` in `payer_repo.py` (fields as used by `processor.py`). -/
structure PayerRow where
  id : String
  payer_type : String
  dd_payer_id : String
  legacy_stripe_customer_id : String
  country : String
  description : Option String
  deriving DecidableEq, Repr

/-- Row of the `pgp_customers` table (current schema), from
`PgpCustomerDbEntity` in `payer_repo.py` (fields as used by `processor.py`). -/
structure PgpCustomerRow where
  id : String
  payer_id : String
  pgp_code : String
  pgp_resource_id : String
  default_payment_method_id : Option String
  deriving DecidableEq, Repr

/-- Row of the legacy `stripe_customer` table, from
`StripeCustomerDbEntity` in `payer_repo.py` (fields as used by
`processor.py`: serial `id`, `stripe_id`, `country_shortname`,
`owner_type`, `owner_id`, `default_card`). -/
structure StripeCustomerRow where
  id : Nat
  stripe_id : String
  country_shortname : String
  owner_type : String
  owner_id : Int
  default_card : Option String
  deriving DecidableEq, Repr

/-- Row of the legacy `stripe_cards` table, from `StripeCardDbEntity` in
`payment_method_repo.py` (only the fields the payer flows read). -/
structure StripeCardRow where
  id : Nat
  stripe_id : String
  deriving DecidableEq, Repr

/-- Row of the `pgp_payment_methods` table, from `PgpPaymentMethodDbEntity`
in `payment_method_repo.py` (only the fields the payer flows read). -/
structure PgpPaymentMethodRow where
  id : String
  pgp_resource_id : String
  deriving DecidableEq, Repr

/-- State of the embedded system: the two relational stores (tables as row
lists), the uuid / serial-id / gateway-id generators, the fault oracle
(`failsOn` lists the names of the database / gateway calls that raise on
this run), and the trace of issued calls. -/
structure World where
  payers : List PayerRow
  pgp_customers : List PgpCustomerRow
  stripe_customers : List StripeCustomerRow
  stripe_cards : List StripeCardRow
  pgp_payment_methods : List PgpPaymentMethodRow
  nextUuid : Nat
  nextSerial : Nat
  gatewaySeq : Nat
  failsOn : List String
  events : List Event
  deriving DecidableEq, Repr

/-- State-and-exception monad of the embedding: a computation takes the
world and returns a result (or a raised exception) together with the
updated world.  World changes made before a `raise` persist, exactly as in
the Python source, where an exception does not roll back earlier awaited
calls. -/
def M (α : Type) : Type := World → Except Err α × World

instance : Monad M where
  pure a := fun w => (.ok a, w)
  bind x f := fun w =>
    match x w with
    | (.ok a, w') => f a w'
    | (.error e, w') => (.error e, w')

/-- Raise an exception. -/
def throwE {α : Type} (e : Err) : M α := fun w => (.error e, w)

/-- Read the current world. -/
def getWorld : M World := fun w => (.ok w, w)

/-- Replace the current world. -/
def setWorld (w : World) : M Unit := fun _ => (.ok (), w)

/-- Append a call observation to the trace. -/
def emit (e : Event) : M Unit := fun w => (.ok (), { w with events := w.events ++ [e] })

/-- Check the fault oracle for the call site named `n`. -/
def callFails (n : String) : M Bool := fun w => (.ok (w.failsOn.contains n), w)

/-- Embedding of Python's `try: body except DataError: handler`: the handler
runs from the world the body left behind (no rollback of the body's
already-performed writes), and only `dataError` is caught. -/
def tryCatchData {α : Type} (body : M α) (handler : M α) : M α := fun w =>
  match body w with
  | (.error .dataError, w') => handler w'
  | r => r

/-- Grouped-digit check for the tail of a Python integer literal body:
underscores may only appear singly, between digits. -/
def pyDigitsTail : List Char → Bool
  | [] => true
  | '_' :: rest =>
    match rest with
    | [] => false
    | c :: rest' => c.isDigit && pyDigitsTail rest'
  | c :: rest => c.isDigit && pyDigitsTail rest

/-- Digit body of a Python integer literal: nonempty, starts with a digit,
underscores only between digits. -/
def pyDigits : List Char → Bool
  | [] => false
  | c :: rest => c.isDigit && pyDigitsTail rest

/-- Whitespace characters stripped by Python's `int` before parsing. -/
def pySpace (c : Char) : Bool :=
  c = ' ' || c = '\t' || c = '\n' || c = '\r' || c = '\x0b' || c = '\x0c'

/-- Strip leading and trailing whitespace from a character list. -/
def pyStrip (l : List Char) : List Char :=
  ((l.dropWhile pySpace).reverse.dropWhile pySpace).reverse

/-- Success condition of Python's `int(s)` on a string: optional surrounding
whitespace, optional sign, then a nonempty digit body with optional single
underscores between digits. -/
def pyIntOk (s : String) : Bool :=
  match pyStrip s.data with
  | '+' :: rest => pyDigits rest
  | '-' :: rest => pyDigits rest
  | l => pyDigits l

/-- Numeric value produced by Python's `int(s)` when `pyIntOk s` holds
(digits accumulated left to right, underscores skipped). -/
def pyIntVal (s : String) : Int :=
  let digitsOf : List Char → Nat := fun l =>
    l.foldl (fun a c => if c.isDigit then a * 10 + (c.toNat - '0'.toNat) else a) 0
  match pyStrip s.data with
  | '+' :: rest => Int.ofNat (digitsOf rest)
  | '-' :: rest => -Int.ofNat (digitsOf rest)
  | l => Int.ofNat (digitsOf l)

/-! ## Repository layer

`app/payin/repository/payer_repo.py` is not part of the source excerpt
(only its input models and callers are), so the bodies of the payer
repository functions are modelled from the spec (§4.1, §6): parameterized
insert/get/update operations, each a single-row single-transaction
operation returning the persisted entity or an absent result, raising
`DataError` on constraint/invalid-data failures (driven here by the fault
oracle), and `insert_payer_and_pgp_customer` composed as one transaction
spanning both inserts. -/

/-- Lookup key variants of `GetPayerByIdInput` (`payer_repo.py`): exactly the
three keyword forms used by `processor.py`. -/
inductive GetPayerByIdInput where
  | byId (id : String)
  | byDdPayerId (dd_payer_id : String)
  | byLegacyStripeCustomerId (legacy_stripe_customer_id : String)
  deriving DecidableEq, Repr

/-- Lookup key variants of `GetStripeCustomerInput` (`payer_repo.py`): by
gateway resource id (`stripe_id=...`) or by legacy serial id (`id=...`).
The serial key arrives as a string from the API and is compared against the
integer serial column. -/
inductive GetStripeCustomerInput where
  | byStripeId (stripe_id : String)
  | bySerialId (id : String)
  deriving DecidableEq, Repr

/-- Modelled from the spec: `PayerRepository.get_payer_by_dd_payer_id_and_payer_type`
(missing `payer_repo.py`) — single-row read of `payers` by
`dd_payer_id` + `payer_type`, raising `DataError` per the fault oracle. -/
def get_payer_by_dd_payer_id_and_payer_type (dd_payer_id payer_type : String) :
    M (Option PayerRow) := do
  emit (.dbRead "payers")
  if (← callFails "get_payer_by_dd_payer_id_and_payer_type") then
    throwE .dataError
  else
    pure ((← getWorld).payers.find? fun p =>
      p.dd_payer_id == dd_payer_id && p.payer_type == payer_type)

/-- Modelled from the spec: `PayerRepository.get_payer_by_id` (missing
`payer_repo.py`) — single-row read of `payers` by the key variant supplied. -/
def get_payer_by_id (input : GetPayerByIdInput) : M (Option PayerRow) := do
  emit (.dbRead "payers")
  if (← callFails "get_payer_by_id") then
    throwE .dataError
  else
    pure ((← getWorld).payers.find? fun p =>
      match input with
      | .byId i => p.id == i
      | .byDdPayerId d => p.dd_payer_id == d
      | .byLegacyStripeCustomerId s => p.legacy_stripe_customer_id == s)

/-- Modelled from the spec: `PayerRepository.get_payer_and_pgp_customer_by_id`
(missing `payer_repo.py`) — joined read of a payer (by the key variant) and
its companion `pgp_customers` row. -/
def get_payer_and_pgp_customer_by_id (input : GetPayerByIdInput) :
    M (Option PayerRow × Option PgpCustomerRow) := do
  emit (.dbRead "payers")
  emit (.dbRead "pgp_customers")
  if (← callFails "get_payer_and_pgp_customer_by_id") then
    throwE .dataError
  else
    let w ← getWorld
    let payer := w.payers.find? fun p =>
      match input with
      | .byId i => p.id == i
      | .byDdPayerId d => p.dd_payer_id == d
      | .byLegacyStripeCustomerId s => p.legacy_stripe_customer_id == s
    match payer with
    | none => pure (none, none)
    | some p => pure (some p, w.pgp_customers.find? fun c => c.payer_id == p.id)

/-- Modelled from the spec: `PayerRepository.insert_payer` (missing
`payer_repo.py`) — single-row single-transaction insert into `payers`; on
`DataError` (fault oracle) nothing becomes visible. -/
def insert_payer (row : PayerRow) : M PayerRow := do
  emit (.dbWrite "payers")
  if (← callFails "insert_payer") then
    throwE .dataError
  else do
    let w ← getWorld
    setWorld { w with payers := w.payers ++ [row] }
    pure row

/-- Modelled from the spec: `PayerRepository.insert_payer_and_pgp_customer`
(missing `payer_repo.py`) — the multi-row operation explicitly composed as
one transaction spanning both inserts: on `DataError` neither row becomes
visible. -/
def insert_payer_and_pgp_customer (payer_input : PayerRow)
    (pgp_customer_input : PgpCustomerRow) : M (PayerRow × PgpCustomerRow) := do
  emit (.dbWrite "payers")
  emit (.dbWrite "pgp_customers")
  if (← callFails "insert_payer_and_pgp_customer") then
    throwE .dataError
  else do
    let w ← getWorld
    setWorld { w with
      payers := w.payers ++ [payer_input],
      pgp_customers := w.pgp_customers ++ [pgp_customer_input] }
    pure (payer_input, pgp_customer_input)

/-- Modelled from the spec: `PayerRepository.get_stripe_customer` (missing
`payer_repo.py`) — single-row read of the legacy `stripe_customer` table by
the key variant supplied. -/
def get_stripe_customer (input : GetStripeCustomerInput) :
    M (Option StripeCustomerRow) := do
  emit (.dbRead "stripe_customer")
  if (← callFails "get_stripe_customer") then
    throwE .dataError
  else
    pure ((← getWorld).stripe_customers.find? fun sc =>
      match input with
      | .byStripeId s => sc.stripe_id == s
      | .bySerialId i => toString sc.id == i)

/-- Modelled from the spec: `PayerRepository.insert_stripe_customer` (missing
`payer_repo.py`) — single-row single-transaction insert into the legacy
`stripe_customer` table, assigning the next serial id. -/
def insert_stripe_customer (stripe_id country_shortname owner_type : String)
    (owner_id : Int) (default_card : Option String) : M StripeCustomerRow := do
  emit (.dbWrite "stripe_customer")
  if (← callFails "insert_stripe_customer") then
    throwE .dataError
  else do
    let w ← getWorld
    let row : StripeCustomerRow :=
      { id := w.nextSerial, stripe_id := stripe_id,
        country_shortname := country_shortname, owner_type := owner_type,
        owner_id := owner_id, default_card := default_card }
    setWorld { w with
      stripe_customers := w.stripe_customers ++ [row],
      nextSerial := w.nextSerial + 1 }
    pure row

/-- Modelled from the spec: `PayerRepository.update_pgp_customer` (missing
`payer_repo.py`) — single-row update of `pgp_customers.default_payment_method_id`
where `id` matches, returning the persisted entity or an absent result. -/
def update_pgp_customer (default_payment_method_id : String) (whereId : String) :
    M (Option PgpCustomerRow) := do
  emit (.dbWrite "pgp_customers")
  if (← callFails "update_pgp_customer") then
    throwE .dataError
  else do
    let w ← getWorld
    let updated := w.pgp_customers.map fun c =>
      if c.id == whereId then
        { c with default_payment_method_id := some default_payment_method_id }
      else c
    setWorld { w with pgp_customers := updated }
    pure (updated.find? fun c => c.id == whereId)

/-- Modelled from the spec: `PayerRepository.update_stripe_customer` (missing
`payer_repo.py`) — single-row update of `stripe_customer.default_card`
where `id` matches, returning the persisted entity or an absent result. -/
def update_stripe_customer (default_card : String) (whereId : Nat) :
    M (Option StripeCustomerRow) := do
  emit (.dbWrite "stripe_customer")
  if (← callFails "update_stripe_customer") then
    throwE .dataError
  else do
    let w ← getWorld
    let updated := w.stripe_customers.map fun sc =>
      if sc.id == whereId then { sc with default_card := some default_card } else sc
    setWorld { w with stripe_customers := updated }
    pure (updated.find? fun sc => sc.id == whereId)

/-- Embedding of `PaymentMethodRepository.insert_pgp_payment_method`
(`payment_method_repo.py`, lines 270-282): a single-row insert wrapped in one
transaction scope on the payment database master — on `DataError` nothing
becomes visible. -/
def insert_pgp_payment_method (row : PgpPaymentMethodRow) : M PgpPaymentMethodRow := do
  emit (.dbWrite "pgp_payment_methods")
  if (← callFails "insert_pgp_payment_method") then
    throwE .dataError
  else do
    let w ← getWorld
    setWorld { w with pgp_payment_methods := w.pgp_payment_methods ++ [row] }
    pure row

/-! ## Gateway layer (external collaborator boundary) -/

/-- Embedding of `app_ctxt.stripe.create_customer` as called from
`PayerClient.pgp_create_customer`: issues the gateway call (recorded in the
trace), returns a fresh gateway customer id, or raises a raw gateway
exception per the fault oracle. -/
def stripe_create_customer : M String := do
  emit (.gatewayCall "create_customer")
  if (← callFails "create_customer") then
    throwE .stripeError
  else do
    let w ← getWorld
    setWorld { w with gatewaySeq := w.gatewaySeq + 1 }
    pure ("cus_" ++ toString w.gatewaySeq)

/-- Result of a gateway `update_customer` call: the customer's invoice
settings carry the new default payment method (from
`UpdateCustomer.InvoiceSettings` in `stripe_models`). -/
structure StripeCustomerGatewayResult where
  sid : String
  invoice_settings_default_payment_method : String
  deriving DecidableEq, Repr

/-- Embedding of `app_ctxt.stripe.update_customer` as called from
`PayerClient.pgp_update_customer_default_payment_method`: issues the gateway
call (recorded in the trace), or raises a raw gateway exception per the
fault oracle. -/
def stripe_update_customer (sid default_payment_method : String) :
    M StripeCustomerGatewayResult := do
  emit (.gatewayCall "update_customer")
  if (← callFails "update_customer") then
    throwE .stripeError
  else
    pure { sid := sid,
           invoice_settings_default_payment_method := default_payment_method }

/-! ## Domain model -/

/-- Catch-all embedding of Python's `try: body except Exception: handler`. -/
def tryCatchAll {α : Type} (body : M α) (handler : M α) : M α := fun w =>
  match body w with
  | (.error _, w') => handler w'
  | r => r

/-- Embedding of `generate_object_uuid` (`app/commons/utils/uuid.py`): a fresh
unique object id per call. -/
def generate_object_uuid : M String := fun w =>
  (.ok ("uuid_" ++ toString w.nextUuid), { w with nextUuid := w.nextUuid + 1 })

/-- Embedding of Python's `int(s)` applied to a string: the parsed value, or
`ValueError` when the string is not a valid integer literal. -/
def pyInt (s : String) : M Int :=
  if pyIntOk s then pure (pyIntVal s) else throwE .valueError

/-- Modelled from the spec: value of `PayerType.MARKETPLACE`
(missing `app/payin/core/payer/types.py`; `PayerType` is a string-valued
enumeration whose members compare equal to their string values). -/
def PayerType.MARKETPLACE : String := "marketplace"

/-- Modelled from the spec: value of `PayerIdType.DD_PAYMENT_PAYER_ID`
(missing `app/payin/core/types.py`; the closed id-type enumeration is
`dd_payer_id`, `dd_consumer_id`, `stripe_customer_id`,
`stripe_customer_serial_id`). -/
def PayerIdType.DD_PAYMENT_PAYER_ID : String := "dd_payer_id"

/-- Modelled from the spec: value of `PayerIdType.DD_CONSUMER_ID`. -/
def PayerIdType.DD_CONSUMER_ID : String := "dd_consumer_id"

/-- Modelled from the spec: value of `PayerIdType.STRIPE_CUSTOMER_ID`. -/
def PayerIdType.STRIPE_CUSTOMER_ID : String := "stripe_customer_id"

/-- Modelled from the spec: value of `PayerIdType.STRIPE_CUSTOMER_SERIAL_ID`. -/
def PayerIdType.STRIPE_CUSTOMER_SERIAL_ID : String := "stripe_customer_serial_id"

/-- Python truthiness of an optional string (`if not payer_id_type` is true
for both `None` and the empty string). -/
def strOptTruthy : Option String → Bool
  | none => false
  | some s => s ≠ ""

/-- RawPayer aggregate (`app/payin/core/payer/model.py`, not in the excerpt;
modelled from the spec §3: a payer may be backed by new-schema rows
(Payer + PgpCustomer), legacy-schema rows (StripeCustomer), or both —
an aggregate of optional entity snapshots). -/
structure RawPayer where
  payer_entity : Option PayerRow := none
  pgp_customer_entity : Option PgpCustomerRow := none
  stripe_customer_entity : Option StripeCustomerRow := none
  deriving DecidableEq, Repr

/-- Payer presentation object (`app/payin/core/payer/model.py`, not in the
excerpt; modelled from the spec: the caller-facing Payer entity built from
whichever backing rows are present). -/
structure Payer where
  id : Option String := none
  payer_type : Option String := none
  country : Option String := none
  dd_payer_id : Option String := none
  pgp_customer_id : Option String := none
  deriving DecidableEq, Repr

/-- Modelled from the spec: `RawPayer.to_payer` (missing
`app/payin/core/payer/model.py`) — build the caller-facing Payer from the
new-schema row when present, otherwise from the legacy row. -/
def RawPayer.to_payer (r : RawPayer) : Payer :=
  match r.payer_entity with
  | some p =>
    { id := some p.id, payer_type := some p.payer_type,
      country := some p.country, dd_payer_id := some p.dd_payer_id,
      pgp_customer_id := some p.legacy_stripe_customer_id }
  | none =>
    match r.stripe_customer_entity with
    | some sc =>
      { id := none, payer_type := some sc.owner_type,
        country := some sc.country_shortname,
        dd_payer_id := some (toString sc.owner_id),
        pgp_customer_id := some sc.stripe_id }
    | none => {}

/-- Modelled from the spec: `RawPayer.get_pgp_customer_id` (missing
`app/payin/core/payer/model.py`) — the gateway customer resource id of the
aggregate, taken from whichever backing row is present. -/
def RawPayer.get_pgp_customer_id (r : RawPayer) : String :=
  match r.pgp_customer_entity with
  | some c => c.pgp_resource_id
  | none =>
    match r.payer_entity with
    | some p => p.legacy_stripe_customer_id
    | none =>
      match r.stripe_customer_entity with
      | some sc => sc.stripe_id
      | none => ""

/-- RawPaymentMethod aggregate (`app/payin/core/payment_method/model.py`,
lines 57-64): optional PgpPaymentMethod and StripeCard snapshots. -/
structure RawPaymentMethod where
  pgp_payment_method_entity : Option PgpPaymentMethodRow := none
  stripe_card_entity : Option StripeCardRow := none
  deriving DecidableEq, Repr

/-- Embedding of `RawPaymentMethod.pgp_payment_method_id`
(`payment_method/model.py`, lines 126-133): the local
`pgp_payment_method_id` is assigned only under `if pgp_payment_method_entity`
/ `elif stripe_card_entity`; when both are absent the trailing
`return pgp_payment_method_id` reads an unassigned local, which in Python
raises `UnboundLocalError`. -/
def RawPaymentMethod.pgp_payment_method_id (r : RawPaymentMethod) :
    Except Err String :=
  match r.pgp_payment_method_entity with
  | some e => .ok e.pgp_resource_id
  | none =>
    match r.stripe_card_entity with
    | some c => .ok c.stripe_id
    | none => .error .unboundLocal

/-! ## Processor layer (`app/payin/core/payer/processor.py`) -/

namespace PayerOps

/-- Embedding of `PayerOps.create_payer_raw_objects` (`processor.py`, lines
474-521): inside `try/except DataError`, generate ids and insert Payer and
PgpCustomer through the single repository call
`insert_payer_and_pgp_customer`.  The only statement of the `try` block
that can raise `DataError` is that insert, which is also the sole
assignment of `payer_entity` (line 485 is an annotation without a value),
so whenever the handler runs `payer_entity` is unbound: the handler's log
f-string `f"[create_payer_impl][{payer_entity.id}] ..."` (line 514) raises
`UnboundLocalError` and the
`raise PayerCreationError(PAYER_CREATE_INVALID_DATA, retryable=True)` at
line 516 is unreachable. -/
def create_payer_raw_objects (dd_payer_id payer_type country pgp_customer_id
    pgp_code : String) (description : Option String)
    (default_payment_method_id : Option String) : M RawPayer :=
  tryCatchData
    (do
      let payer_id ← generate_object_uuid
      let payer_input : PayerRow :=
        { id := payer_id, payer_type := payer_type, dd_payer_id := dd_payer_id,
          legacy_stripe_customer_id := pgp_customer_id, country := country,
          description := description }
      let pgp_customer_uuid ← generate_object_uuid
      let pgp_customer_input : PgpCustomerRow :=
        { id := pgp_customer_uuid, payer_id := payer_id, pgp_code := pgp_code,
          pgp_resource_id := pgp_customer_id,
          default_payment_method_id := default_payment_method_id }
      let (payer_entity, pgp_customer_entity) ←
        insert_payer_and_pgp_customer payer_input pgp_customer_input
      pure { payer_entity := some payer_entity,
             pgp_customer_entity := some pgp_customer_entity,
             stripe_customer_entity := none })
    (throwE .unboundLocal)

/-- Embedding of `PayerOps.get_payer_raw_objects` (`processor.py`, lines
523-557): joined read of payer and pgp_customer (keyed by `dd_payer_id` when
the id type is `dd_consumer_id`, else by `id`); a `DataError` is re-raised
as `PayerReadError(PAYER_READ_DB_ERROR, retryable=False)`; when either row
is missing, `PayerReadError(PAYER_READ_NOT_FOUND, retryable=False)`. -/
def get_payer_raw_objects (payer_id : String)
    (payer_id_type : Option String) (_payer_type : Option String) : M RawPayer := do
  let res ← tryCatchData
    (do
      let (payer_entity, pgp_cus_entity) ← get_payer_and_pgp_customer_by_id
        (if payer_id_type == some PayerIdType.DD_CONSUMER_ID then
          .byDdPayerId payer_id
        else
          .byId payer_id)
      pure (payer_entity, pgp_cus_entity,
            payer_entity.isSome && pgp_cus_entity.isSome))
    (throwE (.payerRead .PAYER_READ_DB_ERROR false))
  match res with
  | (payer_entity, pgp_cus_entity, is_found) =>
    if is_found then
      pure { payer_entity := payer_entity, pgp_customer_entity := pgp_cus_entity,
             stripe_customer_entity := none }
    else
      throwE (.payerRead .PAYER_READ_NOT_FOUND false)

/-- Embedding of `PayerOps.update_payer_default_payment_method`
(`processor.py`, lines 559-591): when a pgp_customer snapshot is present,
update `pgp_customers.default_payment_method_id` and store the returned row
into the aggregate's field; otherwise, when a stripe_customer snapshot is
present, update `stripe_customer.default_card` likewise; otherwise only log.
The same aggregate is returned. -/
def update_payer_default_payment_method (raw_payer : RawPayer)
    (pgp_default_payment_method_id : String) (_payer_id : String)
    (_payer_type : Option String) (_payer_id_type : Option String) : M RawPayer :=
  match raw_payer.pgp_customer_entity with
  | some pgp_customer => do
    let updated ← update_pgp_customer pgp_default_payment_method_id pgp_customer.id
    pure { raw_payer with pgp_customer_entity := updated }
  | none =>
    match raw_payer.stripe_customer_entity with
    | some stripe_customer => do
      let updated ←
        update_stripe_customer pgp_default_payment_method_id stripe_customer.id
      pure { raw_payer with stripe_customer_entity := updated }
    | none => pure raw_payer

end PayerOps

namespace LegacyPayerOps

/-- Embedding of `LegacyPayerOps.create_payer_raw_objects` (`processor.py`,
lines 595-651): inside `try/except DataError`, insert the Payer row, then
look up the legacy stripe_customer by `stripe_id` and insert it only when
absent (with `owner_id=int(dd_payer_id)`).  The two inserts are two
independent repository calls, not one transaction.  The handler's log
f-string reads `payer_entity.id` (line 644): when the failing statement is
`insert_payer` itself, `payer_entity` is still unbound (line 606 is an
annotation without a value) and the handler raises `UnboundLocalError` —
modelled by the inner wrap around `insert_payer`; when a later statement
raises `DataError`, `payer_entity` is bound, the log succeeds, and the
handler re-raises
`PayerCreationError(PAYER_CREATE_INVALID_DATA, retryable=True)` — the
outer handler. -/
def create_payer_raw_objects (dd_payer_id payer_type country pgp_customer_id
    _pgp_code : String) (description : Option String)
    (default_payment_method_id : Option String) : M RawPayer :=
  tryCatchData
    (do
      let payer_id ← generate_object_uuid
      let payer_input : PayerRow :=
        { id := payer_id, payer_type := payer_type, dd_payer_id := dd_payer_id,
          legacy_stripe_customer_id := pgp_customer_id, country := country,
          description := description }
      let payer_entity ←
        tryCatchData (insert_payer payer_input) (throwE .unboundLocal)
      let found ← get_stripe_customer (.byStripeId pgp_customer_id)
      let stripe_customer_entity ←
        match found with
        | some sc => pure sc
        | none => do
          let owner_id ← pyInt dd_payer_id
          insert_stripe_customer pgp_customer_id country payer_type owner_id
            default_payment_method_id
      pure { payer_entity := some payer_entity, pgp_customer_entity := none,
             stripe_customer_entity := some stripe_customer_entity })
    (throwE (.payerCreation .PAYER_CREATE_INVALID_DATA true))

/-- Embedding of `LegacyPayerOps.get_payer_raw_objects` (`processor.py`,
lines 653-695): only when a non-marketplace `payer_type` is supplied does it
query the legacy stripe_customer (by `stripe_id` when the id type is
`stripe_customer_id`, else by serial `id`) and, optionally, the payer row by
`legacy_stripe_customer_id`; `is_found` is true exactly when the
stripe_customer row was found.  With `payer_type` unspecified or
marketplace no query is issued and `is_found` stays false, so the call ends
in `PayerReadError(PAYER_READ_NOT_FOUND, retryable=False)`. -/
def get_payer_raw_objects (payer_id : String)
    (payer_id_type : Option String) (payer_type : Option String) : M RawPayer := do
  let res ← tryCatchData
    (match payer_type with
     | some pt =>
       if pt ≠ PayerType.MARKETPLACE then do
         let stripe_cus_entity ← get_stripe_customer
           (if payer_id_type == some PayerIdType.STRIPE_CUSTOMER_ID then
             .byStripeId payer_id
           else
             .bySerialId payer_id)
         let payer_entity ← get_payer_by_id (.byLegacyStripeCustomerId payer_id)
         pure (payer_entity, stripe_cus_entity, stripe_cus_entity.isSome)
       else
         pure (none, none, false)
     | none => pure (none, none, false))
    (throwE (.payerRead .PAYER_READ_DB_ERROR false))
  match res with
  | (payer_entity, stripe_cus_entity, is_found) =>
    if is_found then
      pure { payer_entity := payer_entity, pgp_customer_entity := none,
             stripe_customer_entity := stripe_cus_entity }
    else
      throwE (.payerRead .PAYER_READ_NOT_FOUND false)

/-- Embedding of `LegacyPayerOps.update_payer_default_payment_method`
(`processor.py`, lines 697-716): when a stripe_customer snapshot is present,
update `stripe_customer.default_card` and store the returned row into the
aggregate's field; the same aggregate is returned. -/
def update_payer_default_payment_method (raw_payer : RawPayer)
    (pgp_default_payment_method_id : String) (_payer_id : String)
    (_payer_type : Option String) (_payer_id_type : Option String) : M RawPayer :=
  match raw_payer.stripe_customer_entity with
  | some stripe_customer => do
    let updated ←
      update_stripe_customer pgp_default_payment_method_id stripe_customer.id
    pure { raw_payer with stripe_customer_entity := updated }
  | none => pure raw_payer

end LegacyPayerOps

namespace PayerClient

/-- Embedding of `PayerClient.has_existing_payer` (`processor.py`, lines
58-81): look up an existing payer by `dd_payer_id` + `payer_type`; a found
duplicate is only logged — the `PayerCreationError(ALREADY_EXIST)` raise is
commented out in the source — while a `DataError` is re-raised as
`PayerCreationError(PAYER_READ_DB_ERROR, retryable=True)`. -/
def has_existing_payer (dd_payer_id payer_type : String) : M Unit :=
  tryCatchData
    (do
      let _exist_payer ←
        get_payer_by_dd_payer_id_and_payer_type dd_payer_id payer_type
      pure ())
    (throwE (.payerCreation .PAYER_READ_DB_ERROR true))

/-- Embedding of `PayerClient.create_payer_raw_objects` (`processor.py`,
lines 83-109): dispatch to the current-schema strategy for marketplace
payers, the legacy-schema strategy otherwise. -/
def create_payer_raw_objects (dd_payer_id payer_type country pgp_customer_id
    pgp_code : String) (description : Option String)
    (default_payment_method_id : Option String) : M RawPayer :=
  if payer_type == PayerType.MARKETPLACE then
    PayerOps.create_payer_raw_objects dd_payer_id payer_type country
      pgp_customer_id pgp_code description default_payment_method_id
  else
    LegacyPayerOps.create_payer_raw_objects dd_payer_id payer_type country
      pgp_customer_id pgp_code description default_payment_method_id

/-- Embedding of `PayerClient.get_payer_raw_objects` (`processor.py`, lines
111-136): id-type dispatch — unspecified / `dd_payer_id` / `dd_consumer_id`
select the current-schema strategy, `stripe_customer_serial_id` /
`stripe_customer_id` the legacy-schema strategy, anything else raises
`PayerReadError(PAYER_READ_INVALID_DATA, retryable=False)` before any
strategy call. -/
def get_payer_raw_objects (payer_id : String)
    (payer_id_type : Option String) (payer_type : Option String) : M RawPayer :=
  if !strOptTruthy payer_id_type
      || payer_id_type == some PayerIdType.DD_PAYMENT_PAYER_ID
      || payer_id_type == some PayerIdType.DD_CONSUMER_ID then
    PayerOps.get_payer_raw_objects payer_id payer_id_type payer_type
  else if payer_id_type == some PayerIdType.STRIPE_CUSTOMER_SERIAL_ID
      || payer_id_type == some PayerIdType.STRIPE_CUSTOMER_ID then
    LegacyPayerOps.get_payer_raw_objects payer_id payer_id_type payer_type
  else
    throwE (.payerRead .PAYER_READ_INVALID_DATA false)

/-- Embedding of `PayerClient.lazy_create_payer` (`processor.py`, lines
188-220): ensure the current-schema Payer does not already exist (lookup by
`legacy_stripe_customer_id`); when it does, return it and skip creation;
otherwise create the raw objects. -/
def lazy_create_payer (dd_payer_id country pgp_customer_id pgp_code
    payer_type : String) (default_payment_method_id : Option String)
    (description : Option String) : M RawPayer := do
  let get_payer_entity ←
    get_payer_by_id (.byLegacyStripeCustomerId pgp_customer_id)
  match get_payer_entity with
  | some payer_entity =>
    pure { payer_entity := some payer_entity, pgp_customer_entity := none,
           stripe_customer_entity := none }
  | none =>
    create_payer_raw_objects dd_payer_id payer_type country pgp_customer_id
      pgp_code description default_payment_method_id

/-- Embedding of `PayerClient.update_payer_default_payment_method`
(`processor.py`, lines 138-186): the same id-type dispatch as resolution,
with `lazy_create` set only on the legacy branch; after the strategy update,
when `lazy_create` holds and the updated aggregate has a stripe_customer
snapshot, lazily create the current-schema payer from that snapshot. -/
def update_payer_default_payment_method (raw_payer : RawPayer)
    (pgp_default_payment_method_id : String) (payer_id : String)
    (payer_type : Option String) (payer_id_type : Option String)
    (description : Option String) : M RawPayer := do
  let dispatched ←
    if !strOptTruthy payer_id_type
        || payer_id_type == some PayerIdType.DD_PAYMENT_PAYER_ID
        || payer_id_type == some PayerIdType.DD_CONSUMER_ID then
      pure (false,
        PayerOps.update_payer_default_payment_method raw_payer
          pgp_default_payment_method_id payer_id payer_type payer_id_type)
    else if payer_id_type == some PayerIdType.STRIPE_CUSTOMER_SERIAL_ID
        || payer_id_type == some PayerIdType.STRIPE_CUSTOMER_ID then
      pure (true,
        LegacyPayerOps.update_payer_default_payment_method raw_payer
          pgp_default_payment_method_id payer_id payer_type payer_id_type)
    else
      throwE (.payerRead .PAYER_READ_INVALID_DATA false)
  let lazy_create := dispatched.1
  let updated_raw_payer ← dispatched.2
  match updated_raw_payer.stripe_customer_entity with
  | some sc =>
    if lazy_create then
      lazy_create_payer (toString sc.owner_id) sc.country_shortname
        sc.stripe_id "stripe" sc.owner_type (some pgp_default_payment_method_id)
        description
    else
      pure updated_raw_payer
  | none => pure updated_raw_payer

/-- Embedding of `PayerClient.pgp_create_customer` (`processor.py`, lines
222-239): call the gateway create-customer operation; any exception is
re-raised as `PayerCreationError(PAYER_CREATE_STRIPE_ERROR, retryable=False)`. -/
def pgp_create_customer (_country _email _description : String) : M String :=
  tryCatchAll
    stripe_create_customer
    (throwE (.payerCreation .PAYER_CREATE_STRIPE_ERROR false))

/-- Embedding of `PayerClient.pgp_update_customer_default_payment_method`
(`processor.py`, lines 241-262): call the gateway update-customer operation;
any exception is re-raised as
`PayerUpdateError(PAYER_UPDATE_STRIPE_ERROR, retryable=False)`. -/
def pgp_update_customer_default_payment_method (_country : String)
    (pgp_customer_id default_payment_method_id : String) :
    M StripeCustomerGatewayResult :=
  tryCatchAll
    (stripe_update_customer pgp_customer_id default_payment_method_id)
    (throwE (.payerUpdate .PAYER_UPDATE_STRIPE_ERROR false))

end PayerClient

/-- Embedding of `create_payer_impl` (`processor.py`, lines 265-324):
step 1 duplicate check (log-only), step 2 gateway customer creation, step 3
Payer/PgpCustomer/StripeCustomer creation, then conversion to the Payer
presentation object. -/
def create_payer_impl (dd_payer_id payer_type email country : String)
    (description : Option String) : M Payer := do
  PayerClient.has_existing_payer dd_payer_id payer_type
  let pgp_customer_id ← PayerClient.pgp_create_customer country email
    (description.getD "")
  let raw_payer ← PayerClient.create_payer_raw_objects dd_payer_id payer_type
    country pgp_customer_id "stripe" description none
  pure raw_payer.to_payer

/-- Embedding of `get_payer_impl` (`processor.py`, lines 327-362). -/
def get_payer_impl (payer_id : String) (payer_id_type : Option String)
    (payer_type : Option String) : M Payer := do
  let raw_payer ← PayerClient.get_payer_raw_objects payer_id payer_id_type
    payer_type
  pure raw_payer.to_payer

/-- Modelled from the spec: `get_payment_method`
(`app/payin/core/payment_method/processor.py` is not in the excerpt) —
resolve the payment-method reference to its backing stripe_card entity,
failing with a typed not-found error; a pure read. -/
def get_payment_method (payment_method_id : String) : M StripeCardRow := do
  emit (.dbRead "stripe_cards")
  let w ← getWorld
  match w.stripe_cards.find? fun c => c.stripe_id == payment_method_id with
  | some card => pure card
  | none => throwE (.paymentMethodRead .PAYMENT_METHOD_GET_NOT_FOUND false)

/-- Embedding of `update_payer_impl` (`processor.py`, lines 365-431):
step 1 resolve the payer, step 2 resolve the payment method, step 3 gateway
update of the default payment method, step 4 local update of
pgp_customers / stripe_customer. -/
def update_payer_impl (payer_id default_payment_method_id country : String)
    (payer_id_type : Option String) (payer_type : Option String) : M Payer := do
  let raw_payer ← PayerClient.get_payer_raw_objects payer_id payer_id_type
    payer_type
  let sc_entity ← get_payment_method default_payment_method_id
  let _stripe_customer ← PayerClient.pgp_update_customer_default_payment_method
    country raw_payer.get_pgp_customer_id sc_entity.stripe_id
  let updated_raw_payer ← PayerClient.update_payer_default_payment_method
    raw_payer sc_entity.stripe_id payer_id payer_type payer_id_type none
  pure updated_raw_payer.to_payer

/-! ## API layer (`app/payin/api/payer/v1/api.py`) -/

/-- Request body of the create-payer route (`CreatePayerRequest`). -/
structure CreatePayerRequest where
  dd_payer_id : String
  payer_type : String
  email : String
  country : String
  description : String
  deriving DecidableEq, Repr

/-- Embedding of the `except PaymentError` block of the create-payer route
(`api.py`, lines 88-98): a typed domain error is re-raised as a
`PaymentException` whose status is 422 for `PAYER_CREATE_INVALID_DATA` and
500 otherwise, preserving code and retryable flag. -/
def translateCreatePaymentError (m : M Payer) : M Payer := fun w =>
  match m w with
  | (.error (.payerCreation code r), w') =>
    (.error (.paymentException
      (if code = .PAYER_CREATE_INVALID_DATA then 422 else 500) code r), w')
  | (.error (.payerRead code r), w') =>
    (.error (.paymentException
      (if code = .PAYER_CREATE_INVALID_DATA then 422 else 500) code r), w')
  | (.error (.payerUpdate code r), w') =>
    (.error (.paymentException
      (if code = .PAYER_CREATE_INVALID_DATA then 422 else 500) code r), w')
  | (.error (.paymentMethodRead code r), w') =>
    (.error (.paymentException
      (if code = .PAYER_CREATE_INVALID_DATA then 422 else 500) code r), w')
  | r => r

/-- Embedding of the `create_payer` route handler (`api.py`, lines 42-99):
when `dd_payer_id` is non-empty, `int(dd_payer_id)` is attempted and a
`ValueError` is turned into
`PaymentException(422, PAYER_CREATE_INVALID_DATA, retryable=False)` before
the processor is invoked; otherwise the processor call runs under the
`PaymentError` translation. -/
def api_create_payer (req : CreatePayerRequest) : M Payer :=
  if req.dd_payer_id ≠ "" && !pyIntOk req.dd_payer_id then
    throwE (.paymentException 422 .PAYER_CREATE_INVALID_DATA false)
  else
    translateCreatePaymentError
      (create_payer_impl req.dd_payer_id req.payer_type req.email req.country
        (some req.description))

/-! ## Object-level (reference) semantics for aggregate update

Python objects are references: `raw_payer.pgp_customer_entity = ...` inside
`PayerOps.update_payer_default_payment_method` assigns into the aggregate
the caller passed.  To express this, the heap-level variant below treats
the aggregate argument as a reference (an index) into a heap of RawPayer
aggregates, mirroring the source statement by statement. -/

/-- Heap-level embedding of `PayerOps.update_payer_default_payment_method`
(`processor.py`, lines 559-591) under Python reference semantics: the
`raw_payer` argument is a reference into `heap`; the source statement
`raw_payer.pgp_customer_entity = await self.payer_repo.update_pgp_customer(...)`
assigns the returned row into the referenced aggregate's field (the heap is
updated at `ref`), and `return raw_payer` returns the same reference.  The
`none` case of the reference lookup is unreachable in Python (a reference
always points at an object) and is modelled as an error. -/
def PayerOps.update_payer_default_payment_method_obj (heap : List RawPayer)
    (ref : Nat) (pgp_default_payment_method_id : String) :
    M (List RawPayer × Nat) :=
  match heap[ref]? with
  | none => throwE .valueError
  | some raw_payer =>
    match raw_payer.pgp_customer_entity with
    | some pgp_customer => do
      let updated ←
        update_pgp_customer pgp_default_payment_method_id pgp_customer.id
      pure (heap.set ref { raw_payer with pgp_customer_entity := updated }, ref)
    | none =>
      match raw_payer.stripe_customer_entity with
      | some stripe_customer => do
        let updated ← update_stripe_customer pgp_default_payment_method_id
          stripe_customer.id
        pure (heap.set ref { raw_payer with stripe_customer_entity := updated },
          ref)
      | none => pure (heap, ref)

/-! ## Concrete scenario data used by witnesses and counterexamples -/

/-- Legacy-only stripe customer used in concrete scenarios: no current-schema
Payer/PgpCustomer row exists for it. -/
def scLegacy : StripeCustomerRow :=
  { id := 1, stripe_id := "cus_A", country_shortname := "US",
    owner_type := "store", owner_id := 77, default_card := none }

/-- Stripe card used in concrete scenarios. -/
def cardPm1 : StripeCardRow := { id := 5, stripe_id := "pm_1" }

/-- Base world of the concrete scenarios: one legacy stripe customer, one
stripe card, empty current-schema tables, no faults. -/
def wBase : World :=
  { payers := [], pgp_customers := [], stripe_customers := [scLegacy],
    stripe_cards := [cardPm1], pgp_payment_methods := [], nextUuid := 0,
    nextSerial := 2, gatewaySeq := 0, failsOn := [], events := [] }

/-- Existing current-schema payer used in the duplicate-creation scenario. -/
def pDup : PayerRow :=
  { id := "uuid_x", payer_type := "marketplace", dd_payer_id := "123",
    legacy_stripe_customer_id := "cus_old", country := "US",
    description := none }

/-- World already holding a payer with `dd_payer_id = "123"` and
`payer_type = "marketplace"`. -/
def wDup : World := { wBase with payers := [pDup] }

/-- All tables of the two stores, and the fault oracle, agree between two
worlds (the computation performed no database write). -/
def TablesEq (w w' : World) : Prop :=
  w'.payers = w.payers ∧ w'.pgp_customers = w.pgp_customers ∧
  w'.stripe_customers = w.stripe_customers ∧ w'.stripe_cards = w.stripe_cards ∧
  w'.pgp_payment_methods = w.pgp_payment_methods ∧ w'.failsOn = w.failsOn

/-- A computation is read-only: it leaves every table (and the fault oracle)
unchanged and only appends read observations to the trace. -/
def ReadOnlyRun {α : Type} (m : M α) : Prop :=
  ∀ w, TablesEq w (m w).2 ∧
    ∃ l, (m w).2.events = w.events ++ l ∧ ∀ e ∈ l, e.isRead = true

/-- A computation only appends to the call trace (it never rewrites
history). -/
def EventsMono {α : Type} (m : M α) : Prop :=
  ∀ w, ∃ l, (m w).2.events = w.events ++ l

/-- Trace property of claim C2: before the first gateway `update_customer`
call of the segment, no database write occurs. -/
def noWriteBeforeGw : List Event → Bool
  | [] => true
  | e :: rest =>
    if e == Event.gatewayCall "update_customer" then true
    else !e.isWrite && noWriteBeforeGw rest


/-! ## Proof infrastructure: evaluation lemmas for the `M` monad -/

/-- Unfold a bind of `M` at a world. -/
theorem M_bind_apply {α β : Type} (x : M α) (f : α → M β) (w : World) :
    (x >>= f) w =
      match x w with
      | (.ok a, w') => f a w'
      | (.error e, w') => (.error e, w') := rfl

/-- Unfold a pure of `M` at a world. -/
@[simp] theorem M_pure_apply {α : Type} (a : α) (w : World) :
    (pure a : M α) w = (.ok a, w) := rfl

/-- Unfold `throwE` at a world. -/
@[simp] theorem throwE_apply {α : Type} (e : Err) (w : World) :
    (throwE e : M α) w = (.error e, w) := rfl

/-- Unfold `getWorld` at a world. -/
@[simp] theorem getWorld_apply (w : World) : getWorld w = (.ok w, w) := rfl

/-- Unfold `setWorld` at a world. -/
@[simp] theorem setWorld_apply (w' w : World) : setWorld w' w = (.ok (), w') := rfl

/-- Unfold `emit` at a world. -/
@[simp] theorem emit_apply (e : Event) (w : World) :
    emit e w = (.ok (), { w with events := w.events ++ [e] }) := rfl

/-- Unfold `callFails` at a world. -/
@[simp] theorem callFails_apply (n : String) (w : World) :
    callFails n w = (.ok (w.failsOn.contains n), w) := rfl

/-- Unfold `tryCatchData` at a world. -/
theorem tryCatchData_apply {α : Type} (body handler : M α) (w : World) :
    tryCatchData body handler w =
      match body w with
      | (.error .dataError, w') => handler w'
      | r => r := rfl

/-- Unfold `tryCatchAll` at a world. -/
theorem tryCatchAll_apply {α : Type} (body handler : M α) (w : World) :
    tryCatchAll body handler w =
      match body w with
      | (.error _, w') => handler w'
      | r => r := rfl

/-- Unfold `generate_object_uuid` at a world. -/
@[simp] theorem generate_object_uuid_apply (w : World) :
    generate_object_uuid w =
      (.ok ("uuid_" ++ toString w.nextUuid), { w with nextUuid := w.nextUuid + 1 }) := rfl

/-! ## Proof infrastructure: effect frames -/

theorem TablesEq.refl (w : World) : TablesEq w w := ⟨rfl, rfl, rfl, rfl, rfl, rfl⟩

theorem TablesEq.trans {w₁ w₂ w₃ : World} (h₁ : TablesEq w₁ w₂)
    (h₂ : TablesEq w₂ w₃) : TablesEq w₁ w₃ := by
  obtain ⟨a₁, b₁, c₁, d₁, e₁, f₁⟩ := h₁
  obtain ⟨a₂, b₂, c₂, d₂, e₂, f₂⟩ := h₂
  exact ⟨a₂.trans a₁, b₂.trans b₁, c₂.trans c₁, d₂.trans d₁, e₂.trans e₁,
    f₂.trans f₁⟩

theorem readOnly_pure {α : Type} (a : α) : ReadOnlyRun (pure a : M α) := by
  intro w
  exact ⟨TablesEq.refl w, [], by simp, by simp⟩

theorem readOnly_throwE {α : Type} (e : Err) : ReadOnlyRun (throwE e : M α) := by
  intro w
  exact ⟨TablesEq.refl w, [], by simp, by simp⟩

theorem readOnly_bind {α β : Type} {x : M α} {f : α → M β}
    (hx : ReadOnlyRun x) (hf : ∀ a, ReadOnlyRun (f a)) :
    ReadOnlyRun (x >>= f) := by
  intro w
  obtain ⟨ht₁, l₁, he₁, hr₁⟩ := hx w
  rw [M_bind_apply]
  rcases hxw : x w with ⟨res, w₁⟩
  rw [hxw] at ht₁ he₁
  cases res with
  | error e => exact ⟨ht₁, l₁, he₁, hr₁⟩
  | ok a =>
    obtain ⟨ht₂, l₂, he₂, hr₂⟩ := (hf a) w₁
    refine ⟨ht₁.trans ht₂, l₁ ++ l₂, ?_, ?_⟩
    · rw [he₂, he₁, List.append_assoc]
    · intro e he
      rcases List.mem_append.mp he with h | h
      · exact hr₁ e h
      · exact hr₂ e h

theorem readOnly_tryCatchData {α : Type} {body handler : M α}
    (hb : ReadOnlyRun body) (hh : ReadOnlyRun handler) :
    ReadOnlyRun (tryCatchData body handler) := by
  intro w
  obtain ⟨ht₁, l₁, he₁, hr₁⟩ := hb w
  rw [tryCatchData_apply]
  rcases hbw : body w with ⟨res, w₁⟩
  rw [hbw] at ht₁ he₁
  cases res with
  | error e =>
    cases e with
    | dataError =>
      obtain ⟨ht₂, l₂, he₂, hr₂⟩ := hh w₁
      refine ⟨ht₁.trans ht₂, l₁ ++ l₂, ?_, ?_⟩
      · rw [he₂, he₁, List.append_assoc]
      · intro e he
        rcases List.mem_append.mp he with h | h
        · exact hr₁ e h
        · exact hr₂ e h
    | stripeError => exact ⟨ht₁, l₁, he₁, hr₁⟩
    | valueError => exact ⟨ht₁, l₁, he₁, hr₁⟩
    | unboundLocal => exact ⟨ht₁, l₁, he₁, hr₁⟩
    | payerCreation c r => exact ⟨ht₁, l₁, he₁, hr₁⟩
    | payerRead c r => exact ⟨ht₁, l₁, he₁, hr₁⟩
    | payerUpdate c r => exact ⟨ht₁, l₁, he₁, hr₁⟩
    | paymentMethodRead c r => exact ⟨ht₁, l₁, he₁, hr₁⟩
    | paymentException s c r => exact ⟨ht₁, l₁, he₁, hr₁⟩
  | ok a => exact ⟨ht₁, l₁, he₁, hr₁⟩

theorem readOnly_ite {α : Type} {c : Prop} [Decidable c] {x y : M α}
    (hx : ReadOnlyRun x) (hy : ReadOnlyRun y) :
    ReadOnlyRun (if c then x else y) := by
  by_cases h : c
  · simp only [if_pos h]; exact hx
  · simp only [if_neg h]; exact hy

theorem readOnly_emitRead (t : String) : ReadOnlyRun (emit (.dbRead t)) := by
  intro w
  refine ⟨⟨rfl, rfl, rfl, rfl, rfl, rfl⟩, [.dbRead t], ?_, ?_⟩
  · simp
  · simp [Event.isRead]

theorem readOnly_callFails (n : String) : ReadOnlyRun (callFails n) := by
  intro w
  exact ⟨TablesEq.refl w, [], by simp, by simp⟩

theorem readOnly_getWorld : ReadOnlyRun getWorld := by
  intro w
  exact ⟨TablesEq.refl w, [], by simp, by simp⟩

theorem readOnly_get_payer_by_dd_payer_id_and_payer_type (d p : String) :
    ReadOnlyRun (get_payer_by_dd_payer_id_and_payer_type d p) := by
  unfold get_payer_by_dd_payer_id_and_payer_type
  apply readOnly_bind (readOnly_emitRead _)
  intro _
  apply readOnly_bind (readOnly_callFails _)
  intro b
  apply readOnly_ite
  · exact readOnly_throwE _
  · exact readOnly_bind readOnly_getWorld fun _ => readOnly_pure _

theorem readOnly_get_payer_by_id (i : GetPayerByIdInput) :
    ReadOnlyRun (get_payer_by_id i) := by
  unfold get_payer_by_id
  apply readOnly_bind (readOnly_emitRead _)
  intro _
  apply readOnly_bind (readOnly_callFails _)
  intro b
  apply readOnly_ite
  · exact readOnly_throwE _
  · exact readOnly_bind readOnly_getWorld fun _ => readOnly_pure _

theorem readOnly_get_payer_and_pgp_customer_by_id (i : GetPayerByIdInput) :
    ReadOnlyRun (get_payer_and_pgp_customer_by_id i) := by
  unfold get_payer_and_pgp_customer_by_id
  apply readOnly_bind (readOnly_emitRead _)
  intro _
  apply readOnly_bind (readOnly_emitRead _)
  intro _
  apply readOnly_bind (readOnly_callFails _)
  intro b
  apply readOnly_ite
  · exact readOnly_throwE _
  · apply readOnly_bind readOnly_getWorld
    intro w1
    rcases w1.payers.find? _ with _ | p
    · exact readOnly_pure _
    · exact readOnly_pure _

theorem readOnly_get_stripe_customer (i : GetStripeCustomerInput) :
    ReadOnlyRun (get_stripe_customer i) := by
  unfold get_stripe_customer
  apply readOnly_bind (readOnly_emitRead _)
  intro _
  apply readOnly_bind (readOnly_callFails _)
  intro b
  apply readOnly_ite
  · exact readOnly_throwE _
  · exact readOnly_bind readOnly_getWorld fun _ => readOnly_pure _

theorem readOnly_get_payment_method (i : String) :
    ReadOnlyRun (get_payment_method i) := by
  unfold get_payment_method
  apply readOnly_bind (readOnly_emitRead _)
  intro _
  apply readOnly_bind readOnly_getWorld
  intro w1
  rcases w1.stripe_cards.find? _ with _ | c
  · exact readOnly_throwE _
  · exact readOnly_pure _

theorem readOnly_PayerOps_get_payer_raw_objects (pid : String)
    (idt pt : Option String) :
    ReadOnlyRun (PayerOps.get_payer_raw_objects pid idt pt) := by
  unfold PayerOps.get_payer_raw_objects
  apply readOnly_bind
  · apply readOnly_tryCatchData
    · apply readOnly_bind (readOnly_get_payer_and_pgp_customer_by_id _)
      intro p
      rcases p with ⟨pe, pce⟩
      exact readOnly_pure _
    · exact readOnly_throwE _
  · intro res
    rcases res with ⟨pe, pce, f⟩
    apply readOnly_ite
    · exact readOnly_pure _
    · exact readOnly_throwE _

theorem readOnly_LegacyPayerOps_get_payer_raw_objects (pid : String)
    (idt pt : Option String) :
    ReadOnlyRun (LegacyPayerOps.get_payer_raw_objects pid idt pt) := by
  unfold LegacyPayerOps.get_payer_raw_objects
  apply readOnly_bind
  · apply readOnly_tryCatchData
    · rcases pt with _ | p
      · exact readOnly_pure _
      · apply readOnly_ite
        · apply readOnly_bind (readOnly_get_stripe_customer _)
          intro sc
          apply readOnly_bind (readOnly_get_payer_by_id _)
          intro pe
          exact readOnly_pure _
        · exact readOnly_pure _
    · exact readOnly_throwE _
  · intro res
    rcases res with ⟨pe, sce, f⟩
    apply readOnly_ite
    · exact readOnly_pure _
    · exact readOnly_throwE _

theorem readOnly_PayerClient_get_payer_raw_objects (pid : String)
    (idt pt : Option String) :
    ReadOnlyRun (PayerClient.get_payer_raw_objects pid idt pt) := by
  unfold PayerClient.get_payer_raw_objects
  apply readOnly_ite
  · exact readOnly_PayerOps_get_payer_raw_objects pid idt pt
  · apply readOnly_ite
    · exact readOnly_LegacyPayerOps_get_payer_raw_objects pid idt pt
    · exact readOnly_throwE _

theorem eventsMono_pure {α : Type} (a : α) : EventsMono (pure a : M α) := by
  intro w
  exact ⟨[], by simp⟩

theorem eventsMono_throwE {α : Type} (e : Err) : EventsMono (throwE e : M α) := by
  intro w
  exact ⟨[], by simp⟩

theorem eventsMono_getWorld : EventsMono getWorld := by
  intro w
  exact ⟨[], by simp⟩

theorem eventsMono_callFails (n : String) : EventsMono (callFails n) := by
  intro w
  exact ⟨[], by simp⟩

theorem eventsMono_emit (e : Event) : EventsMono (emit e) := by
  intro w
  exact ⟨[e], by simp⟩

theorem eventsMono_bind {α β : Type} {x : M α} {f : α → M β}
    (hx : EventsMono x) (hf : ∀ a, EventsMono (f a)) : EventsMono (x >>= f) := by
  intro w
  obtain ⟨l₁, he₁⟩ := hx w
  rw [M_bind_apply]
  rcases hxw : x w with ⟨res, w₁⟩
  rw [hxw] at he₁
  cases res with
  | error e => exact ⟨l₁, he₁⟩
  | ok a =>
    obtain ⟨l₂, he₂⟩ := (hf a) w₁
    exact ⟨l₁ ++ l₂, by rw [he₂, he₁, List.append_assoc]⟩

theorem eventsMono_tryCatchData {α : Type} {body handler : M α}
    (hb : EventsMono body) (hh : EventsMono handler) :
    EventsMono (tryCatchData body handler) := by
  intro w
  obtain ⟨l₁, he₁⟩ := hb w
  rw [tryCatchData_apply]
  rcases hbw : body w with ⟨res, w₁⟩
  rw [hbw] at he₁
  cases res with
  | error e =>
    cases e with
    | dataError =>
      obtain ⟨l₂, he₂⟩ := hh w₁
      exact ⟨l₁ ++ l₂, by rw [he₂, he₁, List.append_assoc]⟩
    | stripeError => exact ⟨l₁, he₁⟩
    | valueError => exact ⟨l₁, he₁⟩
    | unboundLocal => exact ⟨l₁, he₁⟩
    | payerCreation c r => exact ⟨l₁, he₁⟩
    | payerRead c r => exact ⟨l₁, he₁⟩
    | payerUpdate c r => exact ⟨l₁, he₁⟩
    | paymentMethodRead c r => exact ⟨l₁, he₁⟩
    | paymentException s c r => exact ⟨l₁, he₁⟩
  | ok a => exact ⟨l₁, he₁⟩

theorem eventsMono_tryCatchAll {α : Type} {body handler : M α}
    (hb : EventsMono body) (hh : EventsMono handler) :
    EventsMono (tryCatchAll body handler) := by
  intro w
  obtain ⟨l₁, he₁⟩ := hb w
  rw [tryCatchAll_apply]
  rcases hbw : body w with ⟨res, w₁⟩
  rw [hbw] at he₁
  cases res with
  | error e =>
    obtain ⟨l₂, he₂⟩ := hh w₁
    exact ⟨l₁ ++ l₂, by rw [he₂, he₁, List.append_assoc]⟩
  | ok a => exact ⟨l₁, he₁⟩

theorem eventsMono_ite {α : Type} {c : Prop} [Decidable c] {x y : M α}
    (hx : EventsMono x) (hy : EventsMono y) : EventsMono (if c then x else y) := by
  by_cases h : c
  · simp only [if_pos h]; exact hx
  · simp only [if_neg h]; exact hy

theorem eventsMono_of_readOnly {α : Type} {m : M α} (h : ReadOnlyRun m) :
    EventsMono m := by
  intro w
  obtain ⟨_, l, he, _⟩ := h w
  exact ⟨l, he⟩

theorem eventsMono_pyInt (s : String) : EventsMono (pyInt s) := by
  unfold pyInt
  exact eventsMono_ite (eventsMono_pure _) (eventsMono_throwE _)

theorem eventsMono_generate_object_uuid : EventsMono generate_object_uuid := by
  intro w
  exact ⟨[], by simp⟩

/-! ## Proof infrastructure: run equations for the primitive calls -/

/-- Full run equation for `insert_payer`. -/
theorem insert_payer_run (r : PayerRow) (w : World) :
    insert_payer r w =
      if w.failsOn.contains "insert_payer" = true then
        (.error .dataError, { w with events := w.events ++ [.dbWrite "payers"] })
      else
        (.ok r, { w with payers := w.payers ++ [r],
                         events := w.events ++ [.dbWrite "payers"] }) := by
  unfold insert_payer
  simp only [M_bind_apply, emit_apply, callFails_apply, getWorld_apply,
    setWorld_apply, M_pure_apply]
  split
  · rfl
  · rfl

/-- Full run equation for `insert_payer_and_pgp_customer`: one transaction —
on `DataError` neither row is visible. -/
theorem insert_payer_and_pgp_customer_run (p : PayerRow) (c : PgpCustomerRow)
    (w : World) :
    insert_payer_and_pgp_customer p c w =
      if w.failsOn.contains "insert_payer_and_pgp_customer" = true then
        (.error .dataError,
          { w with events := w.events ++ [.dbWrite "payers", .dbWrite "pgp_customers"] })
      else
        (.ok (p, c),
          { w with payers := w.payers ++ [p],
                   pgp_customers := w.pgp_customers ++ [c],
                   events := w.events ++ [.dbWrite "payers", .dbWrite "pgp_customers"] }) := by
  unfold insert_payer_and_pgp_customer
  simp only [M_bind_apply, emit_apply, callFails_apply, getWorld_apply,
    setWorld_apply, M_pure_apply, List.append_assoc, List.cons_append,
    List.nil_append]
  split
  · rfl
  · rfl

/-- Full run equation for `insert_stripe_customer`. -/
theorem insert_stripe_customer_run (sid cs ot : String) (oid : Int)
    (dc : Option String) (w : World) :
    insert_stripe_customer sid cs ot oid dc w =
      if w.failsOn.contains "insert_stripe_customer" = true then
        (.error .dataError,
          { w with events := w.events ++ [.dbWrite "stripe_customer"] })
      else
        (.ok { id := w.nextSerial, stripe_id := sid, country_shortname := cs,
               owner_type := ot, owner_id := oid, default_card := dc },
          { w with
            stripe_customers := w.stripe_customers ++
              [{ id := w.nextSerial, stripe_id := sid, country_shortname := cs,
                 owner_type := ot, owner_id := oid, default_card := dc }],
            nextSerial := w.nextSerial + 1,
            events := w.events ++ [.dbWrite "stripe_customer"] }) := by
  unfold insert_stripe_customer
  simp only [M_bind_apply, emit_apply, callFails_apply, getWorld_apply,
    setWorld_apply, M_pure_apply]
  split
  · rfl
  · rfl

/-- Full run equation for `update_pgp_customer`. -/
theorem update_pgp_customer_run (d i : String) (w : World) :
    update_pgp_customer d i w =
      if w.failsOn.contains "update_pgp_customer" = true then
        (.error .dataError,
          { w with events := w.events ++ [.dbWrite "pgp_customers"] })
      else
        (.ok ((w.pgp_customers.map fun c =>
                if c.id == i then { c with default_payment_method_id := some d }
                else c).find? fun c => c.id == i),
          { w with
            pgp_customers := w.pgp_customers.map fun c =>
              if c.id == i then { c with default_payment_method_id := some d }
              else c,
            events := w.events ++ [.dbWrite "pgp_customers"] }) := by
  unfold update_pgp_customer
  simp only [M_bind_apply, emit_apply, callFails_apply, getWorld_apply,
    setWorld_apply, M_pure_apply]
  split
  · rfl
  · rfl

/-- Full run equation for `update_stripe_customer`. -/
theorem update_stripe_customer_run (d : String) (i : Nat) (w : World) :
    update_stripe_customer d i w =
      if w.failsOn.contains "update_stripe_customer" = true then
        (.error .dataError,
          { w with events := w.events ++ [.dbWrite "stripe_customer"] })
      else
        (.ok ((w.stripe_customers.map fun sc =>
                if sc.id == i then { sc with default_card := some d } else sc).find?
                  fun sc => sc.id == i),
          { w with
            stripe_customers := w.stripe_customers.map fun sc =>
              if sc.id == i then { sc with default_card := some d } else sc,
            events := w.events ++ [.dbWrite "stripe_customer"] }) := by
  unfold update_stripe_customer
  simp only [M_bind_apply, emit_apply, callFails_apply, getWorld_apply,
    setWorld_apply, M_pure_apply]
  split
  · rfl
  · rfl

/-- Full run equation for `insert_pgp_payment_method`. -/
theorem insert_pgp_payment_method_run (r : PgpPaymentMethodRow) (w : World) :
    insert_pgp_payment_method r w =
      if w.failsOn.contains "insert_pgp_payment_method" = true then
        (.error .dataError,
          { w with events := w.events ++ [.dbWrite "pgp_payment_methods"] })
      else
        (.ok r, { w with pgp_payment_methods := w.pgp_payment_methods ++ [r],
                         events := w.events ++ [.dbWrite "pgp_payment_methods"] }) := by
  unfold insert_pgp_payment_method
  simp only [M_bind_apply, emit_apply, callFails_apply, getWorld_apply,
    setWorld_apply, M_pure_apply]
  split
  · rfl
  · rfl

/-- Full run equation for `stripe_create_customer`. -/
theorem stripe_create_customer_run (w : World) :
    stripe_create_customer w =
      if w.failsOn.contains "create_customer" = true then
        (.error .stripeError,
          { w with events := w.events ++ [.gatewayCall "create_customer"] })
      else
        (.ok ("cus_" ++ toString w.gatewaySeq),
          { w with gatewaySeq := w.gatewaySeq + 1,
                   events := w.events ++ [.gatewayCall "create_customer"] }) := by
  unfold stripe_create_customer
  simp only [M_bind_apply, emit_apply, callFails_apply, getWorld_apply,
    setWorld_apply, M_pure_apply]
  split
  · rfl
  · rfl

/-- Full run equation for `stripe_update_customer`. -/
theorem stripe_update_customer_run (sid d : String) (w : World) :
    stripe_update_customer sid d w =
      if w.failsOn.contains "update_customer" = true then
        (.error .stripeError,
          { w with events := w.events ++ [.gatewayCall "update_customer"] })
      else
        (.ok { sid := sid, invoice_settings_default_payment_method := d },
          { w with events := w.events ++ [.gatewayCall "update_customer"] }) := by
  unfold stripe_update_customer
  simp only [M_bind_apply, emit_apply, callFails_apply, M_pure_apply]
  split
  · rfl
  · rfl

/-- Full run equation for `get_payer_by_id`. -/
theorem get_payer_by_id_run (i : GetPayerByIdInput) (w : World) :
    get_payer_by_id i w =
      if w.failsOn.contains "get_payer_by_id" = true then
        (.error .dataError, { w with events := w.events ++ [.dbRead "payers"] })
      else
        (.ok (w.payers.find? fun p =>
          match i with
          | .byId x => p.id == x
          | .byDdPayerId d => p.dd_payer_id == d
          | .byLegacyStripeCustomerId s => p.legacy_stripe_customer_id == s),
          { w with events := w.events ++ [.dbRead "payers"] }) := by
  unfold get_payer_by_id
  simp only [M_bind_apply, emit_apply, callFails_apply, getWorld_apply,
    M_pure_apply]
  split
  · rfl
  · rfl

/-- Full run equation for `get_payer_by_dd_payer_id_and_payer_type`. -/
theorem get_payer_by_dd_payer_id_and_payer_type_run (d p : String) (w : World) :
    get_payer_by_dd_payer_id_and_payer_type d p w =
      if w.failsOn.contains "get_payer_by_dd_payer_id_and_payer_type" = true then
        (.error .dataError, { w with events := w.events ++ [.dbRead "payers"] })
      else
        (.ok (w.payers.find? fun q => q.dd_payer_id == d && q.payer_type == p),
          { w with events := w.events ++ [.dbRead "payers"] }) := by
  unfold get_payer_by_dd_payer_id_and_payer_type
  simp only [M_bind_apply, emit_apply, callFails_apply, getWorld_apply,
    M_pure_apply]
  split
  · rfl
  · rfl

/-- Full run equation for `get_stripe_customer`. -/
theorem get_stripe_customer_run (i : GetStripeCustomerInput) (w : World) :
    get_stripe_customer i w =
      if w.failsOn.contains "get_stripe_customer" = true then
        (.error .dataError,
          { w with events := w.events ++ [.dbRead "stripe_customer"] })
      else
        (.ok (w.stripe_customers.find? fun sc =>
          match i with
          | .byStripeId s => sc.stripe_id == s
          | .bySerialId x => toString sc.id == x),
          { w with events := w.events ++ [.dbRead "stripe_customer"] }) := by
  unfold get_stripe_customer
  simp only [M_bind_apply, emit_apply, callFails_apply, getWorld_apply,
    M_pure_apply]
  split
  · rfl
  · rfl

/-- Full run equation for `get_payer_and_pgp_customer_by_id`. -/
theorem get_payer_and_pgp_customer_by_id_run (i : GetPayerByIdInput) (w : World) :
    get_payer_and_pgp_customer_by_id i w =
      (let w' : World :=
        { w with events := w.events ++ [.dbRead "payers", .dbRead "pgp_customers"] }
      if w.failsOn.contains "get_payer_and_pgp_customer_by_id" = true then
        (.error .dataError, w')
      else
        match w.payers.find? fun p =>
          match i with
          | .byId x => p.id == x
          | .byDdPayerId d => p.dd_payer_id == d
          | .byLegacyStripeCustomerId s => p.legacy_stripe_customer_id == s with
        | none => (.ok (none, none), w')
        | some p =>
          (.ok (some p, w.pgp_customers.find? fun c => c.payer_id == p.id), w')) := by
  unfold get_payer_and_pgp_customer_by_id
  simp only [M_bind_apply, emit_apply, callFails_apply, getWorld_apply,
    M_pure_apply, List.append_assoc, List.cons_append, List.nil_append]
  split
  · rfl
  · simp only [M_bind_apply, getWorld_apply]
    rcases hf : w.payers.find? (fun p =>
        match i with
        | .byId x => p.id == x
        | .byDdPayerId d => p.dd_payer_id == d
        | .byLegacyStripeCustomerId s => p.legacy_stripe_customer_id == s) with _ | p <;>
      simp only [hf] <;> rfl

/-- Full run equation for `get_payment_method`. -/
theorem get_payment_method_run (i : String) (w : World) :
    get_payment_method i w =
      (let w' : World := { w with events := w.events ++ [.dbRead "stripe_cards"] }
      match w.stripe_cards.find? fun c => c.stripe_id == i with
      | some card => (.ok card, w')
      | none =>
        (.error (.paymentMethodRead .PAYMENT_METHOD_GET_NOT_FOUND false), w')) := by
  unfold get_payment_method
  simp only [M_bind_apply, emit_apply, getWorld_apply, M_pure_apply]
  rcases hf : w.stripe_cards.find? (fun c => c.stripe_id == i) with _ | card <;>
    simp only [hf] <;> rfl

theorem eventsMono_insert_payer (r : PayerRow) : EventsMono (insert_payer r) := by
  intro w
  rw [insert_payer_run]
  split
  · exact ⟨[.dbWrite "payers"], rfl⟩
  · exact ⟨[.dbWrite "payers"], rfl⟩

theorem eventsMono_insert_payer_and_pgp_customer (p : PayerRow)
    (c : PgpCustomerRow) : EventsMono (insert_payer_and_pgp_customer p c) := by
  intro w
  rw [insert_payer_and_pgp_customer_run]
  split
  · exact ⟨[.dbWrite "payers", .dbWrite "pgp_customers"], rfl⟩
  · exact ⟨[.dbWrite "payers", .dbWrite "pgp_customers"], rfl⟩

theorem eventsMono_insert_stripe_customer (sid cs ot : String) (oid : Int)
    (dc : Option String) : EventsMono (insert_stripe_customer sid cs ot oid dc) := by
  intro w
  rw [insert_stripe_customer_run]
  split
  · exact ⟨[.dbWrite "stripe_customer"], rfl⟩
  · exact ⟨[.dbWrite "stripe_customer"], rfl⟩

theorem eventsMono_update_pgp_customer (d i : String) :
    EventsMono (update_pgp_customer d i) := by
  intro w
  rw [update_pgp_customer_run]
  split
  · exact ⟨[.dbWrite "pgp_customers"], rfl⟩
  · exact ⟨[.dbWrite "pgp_customers"], rfl⟩

theorem eventsMono_update_stripe_customer (d : String) (i : Nat) :
    EventsMono (update_stripe_customer d i) := by
  intro w
  rw [update_stripe_customer_run]
  split
  · exact ⟨[.dbWrite "stripe_customer"], rfl⟩
  · exact ⟨[.dbWrite "stripe_customer"], rfl⟩

theorem eventsMono_stripe_create_customer : EventsMono stripe_create_customer := by
  intro w
  rw [stripe_create_customer_run]
  split
  · exact ⟨[.gatewayCall "create_customer"], rfl⟩
  · exact ⟨[.gatewayCall "create_customer"], rfl⟩

theorem eventsMono_stripe_update_customer (sid d : String) :
    EventsMono (stripe_update_customer sid d) := by
  intro w
  rw [stripe_update_customer_run]
  split
  · exact ⟨[.gatewayCall "update_customer"], rfl⟩
  · exact ⟨[.gatewayCall "update_customer"], rfl⟩

theorem eventsMono_PayerOps_create_payer_raw_objects (dd pt c pc code : String)
    (ds dpm : Option String) :
    EventsMono (PayerOps.create_payer_raw_objects dd pt c pc code ds dpm) := by
  unfold PayerOps.create_payer_raw_objects
  apply eventsMono_tryCatchData _ (eventsMono_throwE _)
  apply eventsMono_bind eventsMono_generate_object_uuid
  intro pid
  apply eventsMono_bind eventsMono_generate_object_uuid
  intro cid
  apply eventsMono_bind (eventsMono_insert_payer_and_pgp_customer _ _)
  intro pr
  rcases pr with ⟨pe, ce⟩
  exact eventsMono_pure _

theorem eventsMono_LegacyPayerOps_create_payer_raw_objects (dd pt c pc code : String)
    (ds dpm : Option String) :
    EventsMono (LegacyPayerOps.create_payer_raw_objects dd pt c pc code ds dpm) := by
  unfold LegacyPayerOps.create_payer_raw_objects
  apply eventsMono_tryCatchData _ (eventsMono_throwE _)
  apply eventsMono_bind eventsMono_generate_object_uuid
  intro pid
  apply eventsMono_bind
    (eventsMono_tryCatchData (eventsMono_insert_payer _) (eventsMono_throwE _))
  intro pe
  apply eventsMono_bind (eventsMono_of_readOnly (readOnly_get_stripe_customer _))
  intro found
  rcases found with _ | sc
  · exact eventsMono_bind (eventsMono_pyInt _) fun oid =>
      eventsMono_bind (eventsMono_insert_stripe_customer _ _ _ _ _) fun y =>
        eventsMono_pure _
  · exact eventsMono_bind (eventsMono_pure _) fun y => eventsMono_pure _

theorem eventsMono_PayerClient_create_payer_raw_objects (dd pt c pc code : String)
    (ds dpm : Option String) :
    EventsMono (PayerClient.create_payer_raw_objects dd pt c pc code ds dpm) := by
  unfold PayerClient.create_payer_raw_objects
  exact eventsMono_ite
    (eventsMono_PayerOps_create_payer_raw_objects dd pt c pc code ds dpm)
    (eventsMono_LegacyPayerOps_create_payer_raw_objects dd pt c pc code ds dpm)

theorem eventsMono_lazy_create_payer (dd c pc code pt : String)
    (dpm ds : Option String) :
    EventsMono (PayerClient.lazy_create_payer dd c pc code pt dpm ds) := by
  unfold PayerClient.lazy_create_payer
  apply eventsMono_bind (eventsMono_of_readOnly (readOnly_get_payer_by_id _))
  intro found
  rcases found with _ | pe
  · exact eventsMono_PayerClient_create_payer_raw_objects _ _ _ _ _ _ _
  · exact eventsMono_pure _

theorem eventsMono_PayerOps_update_payer_default_payment_method (r : RawPayer)
    (dpm pid : String) (pt idt : Option String) :
    EventsMono (PayerOps.update_payer_default_payment_method r dpm pid pt idt) := by
  unfold PayerOps.update_payer_default_payment_method
  rcases r.pgp_customer_entity with _ | pce
  · rcases r.stripe_customer_entity with _ | sce
    · exact eventsMono_pure _
    · apply eventsMono_bind (eventsMono_update_stripe_customer _ _)
      intro u
      exact eventsMono_pure _
  · apply eventsMono_bind (eventsMono_update_pgp_customer _ _)
    intro u
    exact eventsMono_pure _

theorem eventsMono_LegacyPayerOps_update_payer_default_payment_method (r : RawPayer)
    (dpm pid : String) (pt idt : Option String) :
    EventsMono (LegacyPayerOps.update_payer_default_payment_method r dpm pid pt idt) := by
  unfold LegacyPayerOps.update_payer_default_payment_method
  rcases r.stripe_customer_entity with _ | sce
  · exact eventsMono_pure _
  · apply eventsMono_bind (eventsMono_update_stripe_customer _ _)
    intro u
    exact eventsMono_pure _

/-- Unfold a bind of a pure value of `M`. -/
theorem M_pure_bind {α β : Type} (a : α) (f : α → M β) :
    (pure a : M α) >>= f = f a := rfl

theorem eventsMono_PayerClient_update_payer_default_payment_method (r : RawPayer)
    (dpm pid : String) (pt idt ds : Option String) :
    EventsMono (PayerClient.update_payer_default_payment_method r dpm pid pt idt ds) := by
  unfold PayerClient.update_payer_default_payment_method
  by_cases h1 : (!strOptTruthy idt
      || idt == some PayerIdType.DD_PAYMENT_PAYER_ID
      || idt == some PayerIdType.DD_CONSUMER_ID) = true
  · simp only [h1, if_true, M_pure_bind]
    apply eventsMono_bind
      (eventsMono_PayerOps_update_payer_default_payment_method _ _ _ _ _)
    intro upd
    rcases upd.stripe_customer_entity with _ | sc
    · exact eventsMono_pure _
    · simp only [Bool.false_eq_true, if_false]
      exact eventsMono_pure _
  · simp only [h1, if_false]
    by_cases h2 : (idt == some PayerIdType.STRIPE_CUSTOMER_SERIAL_ID
        || idt == some PayerIdType.STRIPE_CUSTOMER_ID) = true
    · simp only [h2, if_true, M_pure_bind]
      apply eventsMono_bind
        (eventsMono_LegacyPayerOps_update_payer_default_payment_method _ _ _ _ _)
      intro upd
      rcases upd.stripe_customer_entity with _ | sc
      · exact eventsMono_pure _
      · simp only [if_true]
        exact eventsMono_lazy_create_payer _ _ _ _ _ _ _
    · simp only [h2, if_false]
      intro w
      exact ⟨[], (List.append_nil w.events).symm⟩

/-- Full run equation for `PayerClient.pgp_update_customer_default_payment_method`:
exactly one gateway call is issued; on gateway failure the raw exception is
re-raised as `PayerUpdateError(PAYER_UPDATE_STRIPE_ERROR, retryable=False)`
with no other state change. -/
theorem pgp_update_customer_default_payment_method_run (c cid dpm : String)
    (w : World) :
    PayerClient.pgp_update_customer_default_payment_method c cid dpm w =
      if w.failsOn.contains "update_customer" = true then
        (.error (.payerUpdate .PAYER_UPDATE_STRIPE_ERROR false),
          { w with events := w.events ++ [.gatewayCall "update_customer"] })
      else
        (.ok { sid := cid, invoice_settings_default_payment_method := dpm },
          { w with events := w.events ++ [.gatewayCall "update_customer"] }) := by
  unfold PayerClient.pgp_update_customer_default_payment_method
  rw [tryCatchAll_apply, stripe_update_customer_run]
  by_cases h : w.failsOn.contains "update_customer" = true
  · simp only [h, if_true]
    rfl
  · have hb : w.failsOn.contains "update_customer" = false := by simpa using h
    simp only [hb, Bool.false_eq_true, if_false]

/-- Full run equation for `PayerClient.pgp_create_customer`: exactly one
gateway call is issued; on gateway failure the raw exception is re-raised as
`PayerCreationError(PAYER_CREATE_STRIPE_ERROR, retryable=False)`. -/
theorem pgp_create_customer_run (c em ds : String) (w : World) :
    PayerClient.pgp_create_customer c em ds w =
      if w.failsOn.contains "create_customer" = true then
        (.error (.payerCreation .PAYER_CREATE_STRIPE_ERROR false),
          { w with events := w.events ++ [.gatewayCall "create_customer"] })
      else
        (.ok ("cus_" ++ toString w.gatewaySeq),
          { w with gatewaySeq := w.gatewaySeq + 1,
                   events := w.events ++ [.gatewayCall "create_customer"] }) := by
  unfold PayerClient.pgp_create_customer
  rw [tryCatchAll_apply, stripe_create_customer_run]
  by_cases h : w.failsOn.contains "create_customer" = true
  · simp only [h, if_true]
    rfl
  · have hb : w.failsOn.contains "create_customer" = false := by simpa using h
    simp only [hb, Bool.false_eq_true, if_false]

theorem noWriteBeforeGw_of_reads {l : List Event}
    (h : ∀ e ∈ l, e.isRead = true) : noWriteBeforeGw l = true := by
  induction l with
  | nil => rfl
  | cons e rest ih =>
    have he : e.isRead = true := h e (List.mem_cons_self e rest)
    unfold noWriteBeforeGw
    split
    · rfl
    · rw [ih fun x hx => h x (List.mem_cons_of_mem e hx)]
      cases e with
      | dbRead t => rfl
      | dbWrite t => simp [Event.isRead] at he
      | gatewayCall o => simp [Event.isRead] at he

theorem noWriteBeforeGw_append_gw {l₁ l₂ : List Event}
    (h : ∀ e ∈ l₁, e.isRead = true) :
    noWriteBeforeGw (l₁ ++ Event.gatewayCall "update_customer" :: l₂) = true := by
  induction l₁ with
  | nil =>
    unfold noWriteBeforeGw
    simp
  | cons e rest ih =>
    have he : e.isRead = true := h e (List.mem_cons_self e rest)
    rw [List.cons_append]
    unfold noWriteBeforeGw
    split
    · rfl
    · rw [ih fun x hx => h x (List.mem_cons_of_mem e hx)]
      cases e with
      | dbRead t => rfl
      | dbWrite t => simp [Event.isRead] at he
      | gatewayCall o => simp [Event.isRead] at he

theorem gw_not_mem_of_reads {l : List Event}
    (h : ∀ e ∈ l, e.isRead = true) :
    Event.gatewayCall "update_customer" ∉ l := by
  intro hm
  have := h _ hm
  simp [Event.isRead] at this

theorem reads_append {l₁ l₂ : List Event} (h₁ : ∀ e ∈ l₁, e.isRead = true)
    (h₂ : ∀ e ∈ l₂, e.isRead = true) : ∀ e ∈ l₁ ++ l₂, e.isRead = true := by
  intro e he
  rcases List.mem_append.mp he with h | h
  · exact h₁ e h
  · exact h₂ e h

/-- Claim C2: in `update_payer_impl` the gateway update-customer call is
always issued before any local database write (first conjunct: in the trace
segment of any run, no `dbWrite` precedes the gateway `update_customer`
call), and a gateway failure — surfaced as
`PayerUpdateError(PAYER_UPDATE_STRIPE_ERROR)` — leaves the `pgp_customers`
and `stripe_customer` tables (indeed every table) unchanged and never
acknowledges success (second conjunct). -/
theorem update_payer_gateway_before_local_write :
    (∀ (w : World) (pid dpm c : String) (idt pt : Option String),
      ∃ l, (update_payer_impl pid dpm c idt pt w).2.events = w.events ++ l ∧
        noWriteBeforeGw l = true) ∧
    (∀ (w : World) (pid dpm c : String) (idt pt : Option String),
      w.failsOn.contains "update_customer" = true →
        TablesEq w (update_payer_impl pid dpm c idt pt w).2 ∧
        (∀ p, (update_payer_impl pid dpm c idt pt w).1 ≠ .ok p) ∧
        ∃ l, (update_payer_impl pid dpm c idt pt w).2.events = w.events ++ l ∧
          (Event.gatewayCall "update_customer" ∈ l →
            (update_payer_impl pid dpm c idt pt w).1 =
              .error (.payerUpdate .PAYER_UPDATE_STRIPE_ERROR false))) := by
  constructor
  · intro w pid dpm c idt pt
    obtain ⟨ht1, l1, he1, hr1⟩ :=
      readOnly_PayerClient_get_payer_raw_objects pid idt pt w
    unfold update_payer_impl
    rw [M_bind_apply]
    rcases h1 : PayerClient.get_payer_raw_objects pid idt pt w with ⟨res1, w1⟩
    rw [h1] at ht1 he1
    cases res1 with
    | error e => exact ⟨l1, he1, noWriteBeforeGw_of_reads hr1⟩
    | ok raw =>
      obtain ⟨ht2, l2, he2, hr2⟩ := readOnly_get_payment_method dpm w1
      dsimp only
      rw [M_bind_apply]
      rcases h2 : get_payment_method dpm w1 with ⟨res2, w2⟩
      rw [h2] at ht2 he2
      cases res2 with
      | error e =>
        refine ⟨l1 ++ l2, ?_, noWriteBeforeGw_of_reads (reads_append hr1 hr2)⟩
        rw [he2, he1, List.append_assoc]
      | ok card =>
        dsimp only
        rw [M_bind_apply, pgp_update_customer_default_payment_method_run]
        by_cases hf : w2.failsOn.contains "update_customer" = true
        · simp only [hf, if_true]
          refine ⟨l1 ++ l2 ++ [.gatewayCall "update_customer"], ?_, ?_⟩
          · show w2.events ++ [Event.gatewayCall "update_customer"] = _
            rw [he2, he1]
            simp [List.append_assoc]
          · have := @noWriteBeforeGw_append_gw (l1 ++ l2) []
              (reads_append hr1 hr2)
            simpa using this
        · have hb : w2.failsOn.contains "update_customer" = false := by
            simpa using hf
          simp only [hb, Bool.false_eq_true, if_false]
          rw [M_bind_apply]
          obtain ⟨l4, he4⟩ :=
            eventsMono_PayerClient_update_payer_default_payment_method raw
              card.stripe_id pid pt idt none
              { w2 with events := w2.events ++ [.gatewayCall "update_customer"] }
          rcases h4 : PayerClient.update_payer_default_payment_method raw
              card.stripe_id pid pt idt none
              { w2 with events := w2.events ++ [.gatewayCall "update_customer"] }
            with ⟨res4, w4⟩
          rw [h4] at he4
          have hev4 : w4.events =
              w.events ++ (l1 ++ l2 ++ Event.gatewayCall "update_customer" :: l4) := by
            have : w4.events = (w2.events ++ [.gatewayCall "update_customer"]) ++ l4 :=
              he4
            rw [this, he2, he1]
            simp [List.append_assoc]
          cases res4 with
          | error e =>
            exact ⟨l1 ++ l2 ++ Event.gatewayCall "update_customer" :: l4, hev4,
              by
                have := @noWriteBeforeGw_append_gw (l1 ++ l2) l4
                  (reads_append hr1 hr2)
                simpa using this⟩
          | ok upd =>
            exact ⟨l1 ++ l2 ++ Event.gatewayCall "update_customer" :: l4, hev4,
              by
                have := @noWriteBeforeGw_append_gw (l1 ++ l2) l4
                  (reads_append hr1 hr2)
                simpa using this⟩
  · intro w pid dpm c idt pt hfault
    obtain ⟨ht1, l1, he1, hr1⟩ :=
      readOnly_PayerClient_get_payer_raw_objects pid idt pt w
    unfold update_payer_impl
    rw [M_bind_apply]
    rcases h1 : PayerClient.get_payer_raw_objects pid idt pt w with ⟨res1, w1⟩
    rw [h1] at ht1 he1
    cases res1 with
    | error e =>
      refine ⟨ht1, by simp, l1, he1, ?_⟩
      intro hm
      exact absurd hm (gw_not_mem_of_reads hr1)
    | ok raw =>
      obtain ⟨ht2, l2, he2, hr2⟩ := readOnly_get_payment_method dpm w1
      dsimp only
      rw [M_bind_apply]
      rcases h2 : get_payment_method dpm w1 with ⟨res2, w2⟩
      rw [h2] at ht2 he2
      cases res2 with
      | error e =>
        refine ⟨ht1.trans ht2, by simp, l1 ++ l2, ?_, ?_⟩
        · rw [he2, he1, List.append_assoc]
        · intro hm
          exact absurd hm (gw_not_mem_of_reads (reads_append hr1 hr2))
      | ok card =>
        have hf2 : w2.failsOn.contains "update_customer" = true := by
          rw [ht2.2.2.2.2.2, ht1.2.2.2.2.2]
          exact hfault
        dsimp only
        rw [M_bind_apply, pgp_update_customer_default_payment_method_run]
        simp only [hf2, if_true]
        refine ⟨?_, by simp, l1 ++ l2 ++ [.gatewayCall "update_customer"], ?_, ?_⟩
        · refine (ht1.trans ht2).trans ⟨rfl, rfl, rfl, rfl, rfl, rfl⟩
        · show w2.events ++ [Event.gatewayCall "update_customer"] = _
          rw [he2, he1]
          simp [List.append_assoc]
        · intro _
          trivial

/-- Full run equation for `PayerClient.has_existing_payer`: one read of the
payers table; a found duplicate changes nothing (the rejection is commented
out in the source); a `DataError` is re-raised as
`PayerCreationError(PAYER_READ_DB_ERROR, retryable=True)`. -/
theorem has_existing_payer_run (dd pt : String) (w : World) :
    PayerClient.has_existing_payer dd pt w =
      if w.failsOn.contains "get_payer_by_dd_payer_id_and_payer_type" = true then
        (.error (.payerCreation .PAYER_READ_DB_ERROR true),
          { w with events := w.events ++ [.dbRead "payers"] })
      else
        (.ok (), { w with events := w.events ++ [.dbRead "payers"] }) := by
  unfold PayerClient.has_existing_payer
  rw [tryCatchData_apply, M_bind_apply,
    get_payer_by_dd_payer_id_and_payer_type_run]
  by_cases h : w.failsOn.contains "get_payer_by_dd_payer_id_and_payer_type" = true
  · simp only [h, if_true]
    rfl
  · have hb : w.failsOn.contains "get_payer_by_dd_payer_id_and_payer_type" = false := by
      simpa using h
    simp only [hb, Bool.false_eq_true, if_false]

/-- Full run equation for `PayerOps.create_payer_raw_objects`: two generated
ids, then the single atomic `insert_payer_and_pgp_customer` call; a
`DataError` is re-raised as
`PayerCreationError(PAYER_CREATE_INVALID_DATA, retryable=True)` with neither
row visible. -/
theorem PayerOps_create_payer_raw_objects_run (dd pt c pc code : String)
    (ds dpm : Option String) (w : World) :
    PayerOps.create_payer_raw_objects dd pt c pc code ds dpm w =
      (let payer_row : PayerRow :=
        { id := "uuid_" ++ toString w.nextUuid, payer_type := pt,
          dd_payer_id := dd, legacy_stripe_customer_id := pc, country := c,
          description := ds }
      let pgp_row : PgpCustomerRow :=
        { id := "uuid_" ++ toString (w.nextUuid + 1), payer_id := payer_row.id,
          pgp_code := code, pgp_resource_id := pc,
          default_payment_method_id := dpm }
      if w.failsOn.contains "insert_payer_and_pgp_customer" = true then
        (.error .unboundLocal,
          { w with nextUuid := w.nextUuid + 1 + 1,
                   events := w.events ++
                     [.dbWrite "payers", .dbWrite "pgp_customers"] })
      else
        (.ok { payer_entity := some payer_row,
               pgp_customer_entity := some pgp_row,
               stripe_customer_entity := none },
          { w with payers := w.payers ++ [payer_row],
                   pgp_customers := w.pgp_customers ++ [pgp_row],
                   nextUuid := w.nextUuid + 1 + 1,
                   events := w.events ++
                     [.dbWrite "payers", .dbWrite "pgp_customers"] })) := by
  unfold PayerOps.create_payer_raw_objects
  rw [tryCatchData_apply, M_bind_apply, generate_object_uuid_apply]
  dsimp only
  rw [M_bind_apply, generate_object_uuid_apply]
  dsimp only
  rw [M_bind_apply, insert_payer_and_pgp_customer_run]
  by_cases h : w.failsOn.contains "insert_payer_and_pgp_customer" = true
  · simp only [h, if_true]
    rfl
  · have hb : w.failsOn.contains "insert_payer_and_pgp_customer" = false := by
      simpa using h
    simp only [hb, Bool.false_eq_true, if_false]

/-- Witness for claim C2's theorem at a concrete legacy-update scenario:
part 1 instantiated at the fault-free base world, part 2 at the same world
with a failing gateway `update_customer` call. -/
theorem update_payer_gateway_before_local_write_witness :
    (∃ l, (update_payer_impl "cus_A" "pm_1" "US" (some "stripe_customer_id")
        (some "store") wBase).2.events = wBase.events ++ l ∧
      noWriteBeforeGw l = true) ∧
    TablesEq { wBase with failsOn := ["update_customer"] }
      (update_payer_impl "cus_A" "pm_1" "US" (some "stripe_customer_id")
        (some "store") { wBase with failsOn := ["update_customer"] }).2 :=
  ⟨update_payer_gateway_before_local_write.1 wBase "cus_A" "pm_1" "US"
      (some "stripe_customer_id") (some "store"),
   (update_payer_gateway_before_local_write.2
      { wBase with failsOn := ["update_customer"] } "cus_A" "pm_1" "US"
      (some "stripe_customer_id") (some "store") (by decide)).1⟩

/-- Claim C10: `RawPaymentMethod.pgp_payment_method_id` is total only under
the precondition that at least one of the two backing entities is present;
for an aggregate with both absent, the result local is never assigned and
the call raises an unhandled `UnboundLocalError` instead of returning a
value or a typed domain error. -/
theorem pgp_payment_method_id_unbound_when_both_absent :
    (∀ r : RawPaymentMethod, r.pgp_payment_method_entity = none →
      r.stripe_card_entity = none →
      r.pgp_payment_method_id = .error .unboundLocal) ∧
    (∀ r : RawPaymentMethod,
      r.pgp_payment_method_entity.isSome = true ∨
        r.stripe_card_entity.isSome = true →
      ∃ s, r.pgp_payment_method_id = .ok s) := by
  constructor
  · intro r h1 h2
    unfold RawPaymentMethod.pgp_payment_method_id
    rw [h1, h2]
  · intro r h
    unfold RawPaymentMethod.pgp_payment_method_id
    rcases hp : r.pgp_payment_method_entity with _ | e
    · rcases hs : r.stripe_card_entity with _ | cd
      · rw [hp, hs] at h
        simp at h
      · exact ⟨cd.stripe_id, rfl⟩
    · exact ⟨e.pgp_resource_id, rfl⟩

/-- Witness for claim C10's theorem: both conjuncts instantiated at concrete
aggregates. -/
theorem pgp_payment_method_id_unbound_witness :
    ({} : RawPaymentMethod).pgp_payment_method_id = .error .unboundLocal ∧
    ∃ s, ({ stripe_card_entity := some cardPm1 } :
      RawPaymentMethod).pgp_payment_method_id = .ok s :=
  ⟨pgp_payment_method_id_unbound_when_both_absent.1 {} rfl rfl,
   pgp_payment_method_id_unbound_when_both_absent.2 _ (.inr rfl)⟩

/-- Claim C7: a create-payer request with a non-empty, non-numeric
`dd_payer_id` is rejected with
`PaymentException(422, PAYER_CREATE_INVALID_DATA, retryable=False)` leaving
the world untouched (no gateway or database call); a numeric `dd_payer_id`
passes the check and the request proceeds to the processor under the
`PaymentError` translation. -/
theorem create_payer_nonnumeric_rejected_before_any_call :
    (∀ (w : World) (req : CreatePayerRequest),
      req.dd_payer_id ≠ "" → pyIntOk req.dd_payer_id = false →
      api_create_payer req w =
        (.error (.paymentException 422 .PAYER_CREATE_INVALID_DATA false), w)) ∧
    (∀ (w : World) (req : CreatePayerRequest),
      pyIntOk req.dd_payer_id = true →
      api_create_payer req w =
        translateCreatePaymentError
          (create_payer_impl req.dd_payer_id req.payer_type req.email
            req.country (some req.description)) w) := by
  constructor
  · intro w req h1 h2
    unfold api_create_payer
    rw [if_pos]
    · rfl
    · simp [h1, h2]
  · intro w req h
    unfold api_create_payer
    rw [if_neg]
    · simp [h]

/-- Witness for claim C7's theorem: the rejection at `dd_payer_id = "abc"`
and the pass at `dd_payer_id = "123"`. -/
theorem create_payer_nonnumeric_rejected_witness :
    api_create_payer
        { dd_payer_id := "abc", payer_type := "marketplace", email := "e",
          country := "US", description := "d" } wBase =
      (.error (.paymentException 422 .PAYER_CREATE_INVALID_DATA false), wBase) ∧
    api_create_payer
        { dd_payer_id := "123", payer_type := "marketplace", email := "e",
          country := "US", description := "d" } wBase =
      translateCreatePaymentError
        (create_payer_impl "123" "marketplace" "e" "US" (some "d")) wBase :=
  ⟨create_payer_nonnumeric_rejected_before_any_call.1 wBase _ (by decide)
      (by decide),
   create_payer_nonnumeric_rejected_before_any_call.2 wBase _ (by decide)⟩

/-- Counterexample to claim C4 as stated: `payer_id_type = ""` is not one of
the four enumerated id types, yet the call does not fail with
`ReadError(invalid_data)` — the falsy value selects the current-schema
strategy, which queries that schema and (here) ends in `not_found`. -/
theorem get_payer_id_type_dispatch_counterexample :
    PayerClient.get_payer_raw_objects "x" (some "") none wBase =
      PayerOps.get_payer_raw_objects "x" (some "") none wBase ∧
    (PayerClient.get_payer_raw_objects "x" (some "") none wBase).1 =
      .error (.payerRead .PAYER_READ_NOT_FOUND false) ∧
    (PayerClient.get_payer_raw_objects "x" (some "") none wBase).2.events ≠ [] := by
  refine ⟨rfl, by decide, by decide⟩

/-- Claim C4 (amended): payer resolution dispatches on the id type — a falsy
value (`None` or the empty string) or `dd_payer_id` / `dd_consumer_id`
selects the current-schema strategy (`PayerOps`); `stripe_customer_id` /
`stripe_customer_serial_id` selects the legacy-schema strategy
(`LegacyPayerOps`); any other non-empty value fails with
`PayerReadError(PAYER_READ_INVALID_DATA, retryable=False)` leaving the
world untouched, before querying either schema. -/
theorem get_payer_id_type_dispatch :
    (∀ (w : World) (pid : String) (pt : Option String),
      PayerClient.get_payer_raw_objects pid none pt w =
        PayerOps.get_payer_raw_objects pid none pt w ∧
      PayerClient.get_payer_raw_objects pid (some "") pt w =
        PayerOps.get_payer_raw_objects pid (some "") pt w ∧
      PayerClient.get_payer_raw_objects pid
          (some PayerIdType.DD_PAYMENT_PAYER_ID) pt w =
        PayerOps.get_payer_raw_objects pid
          (some PayerIdType.DD_PAYMENT_PAYER_ID) pt w ∧
      PayerClient.get_payer_raw_objects pid
          (some PayerIdType.DD_CONSUMER_ID) pt w =
        PayerOps.get_payer_raw_objects pid
          (some PayerIdType.DD_CONSUMER_ID) pt w ∧
      PayerClient.get_payer_raw_objects pid
          (some PayerIdType.STRIPE_CUSTOMER_ID) pt w =
        LegacyPayerOps.get_payer_raw_objects pid
          (some PayerIdType.STRIPE_CUSTOMER_ID) pt w ∧
      PayerClient.get_payer_raw_objects pid
          (some PayerIdType.STRIPE_CUSTOMER_SERIAL_ID) pt w =
        LegacyPayerOps.get_payer_raw_objects pid
          (some PayerIdType.STRIPE_CUSTOMER_SERIAL_ID) pt w) ∧
    (∀ (w : World) (pid : String) (pt : Option String) (s : String),
      s ≠ "" → s ≠ PayerIdType.DD_PAYMENT_PAYER_ID →
      s ≠ PayerIdType.DD_CONSUMER_ID → s ≠ PayerIdType.STRIPE_CUSTOMER_ID →
      s ≠ PayerIdType.STRIPE_CUSTOMER_SERIAL_ID →
      PayerClient.get_payer_raw_objects pid (some s) pt w =
        (.error (.payerRead .PAYER_READ_INVALID_DATA false), w)) := by
  constructor
  · intro w pid pt
    exact ⟨rfl, rfl, rfl, rfl, rfl, rfl⟩
  · intro w pid pt s h1 h2 h3 h4 h5
    simp only [PayerIdType.DD_PAYMENT_PAYER_ID] at h2
    simp only [PayerIdType.DD_CONSUMER_ID] at h3
    simp only [PayerIdType.STRIPE_CUSTOMER_ID] at h4
    simp only [PayerIdType.STRIPE_CUSTOMER_SERIAL_ID] at h5
    have c1 : (!strOptTruthy (some s)
        || some s == some PayerIdType.DD_PAYMENT_PAYER_ID
        || some s == some PayerIdType.DD_CONSUMER_ID) = false := by
      simp [strOptTruthy, PayerIdType.DD_PAYMENT_PAYER_ID,
        PayerIdType.DD_CONSUMER_ID, h1, h2, h3]
    have c2 : (some s == some PayerIdType.STRIPE_CUSTOMER_SERIAL_ID
        || some s == some PayerIdType.STRIPE_CUSTOMER_ID) = false := by
      simp [PayerIdType.STRIPE_CUSTOMER_SERIAL_ID,
        PayerIdType.STRIPE_CUSTOMER_ID, h4, h5]
    unfold PayerClient.get_payer_raw_objects
    simp only [c1, c2, Bool.false_eq_true, if_false]
    rfl

/-- Witness for claim C4's theorem: the dispatch equations at a concrete
world, and the invalid-data failure at the unrecognized id type
`"open_id"`. -/
theorem get_payer_id_type_dispatch_witness :
    PayerClient.get_payer_raw_objects "x" none none wBase =
      PayerOps.get_payer_raw_objects "x" none none wBase ∧
    PayerClient.get_payer_raw_objects "x" (some "open_id") none wBase =
      (.error (.payerRead .PAYER_READ_INVALID_DATA false), wBase) :=
  ⟨(get_payer_id_type_dispatch.1 wBase "x" none).1,
   get_payer_id_type_dispatch.2 wBase "x" none "open_id" (by decide) (by decide)
     (by decide) (by decide) (by decide)⟩

/-- Counterexample to claim C5 as stated: a constraint-violation /
invalid-data cause (`asyncpg.DataError`) at the `has_existing_payer`
repository boundary is re-raised with `retryable = true`, not
`retryable = false`. -/
theorem repository_dataerror_retryable_counterexample :
    (PayerClient.has_existing_payer "77" "store"
      { wBase with failsOn := ["get_payer_by_dd_payer_id_and_payer_type"] }).1 =
      .error (.payerCreation .PAYER_READ_DB_ERROR true) := by
  decide

/-- Claim C5 (amended): `DataError` handling at the payer repository
boundary is not uniform, so callers cannot branch on the `retryable` flag
alone: the read handlers of `PayerOps.get_payer_raw_objects` and
`LegacyPayerOps.get_payer_raw_objects` re-raise with `retryable = false`;
`has_existing_payer` re-raises with `retryable = true`; and in
`PayerOps.create_payer_raw_objects` (always) and
`LegacyPayerOps.create_payer_raw_objects` (when the payer insert itself
fails) no typed domain error is produced at all — the handler's log line
reads the unbound `payer_entity` and raises `UnboundLocalError`. -/
theorem repository_dataerror_retryable_flags :
    (∀ (w : World) (dd pt : String),
      w.failsOn.contains "get_payer_by_dd_payer_id_and_payer_type" = true →
      (PayerClient.has_existing_payer dd pt w).1 =
        .error (.payerCreation .PAYER_READ_DB_ERROR true)) ∧
    (∀ (w : World) (dd pt c pc code : String) (ds dpm : Option String),
      w.failsOn.contains "insert_payer_and_pgp_customer" = true →
      (PayerOps.create_payer_raw_objects dd pt c pc code ds dpm w).1 =
        .error .unboundLocal) ∧
    (∀ (w : World) (dd pt c pc code : String) (ds dpm : Option String),
      w.failsOn.contains "insert_payer" = true →
      (LegacyPayerOps.create_payer_raw_objects dd pt c pc code ds dpm w).1 =
        .error .unboundLocal) ∧
    (∀ (w : World) (pid : String) (idt pt : Option String),
      w.failsOn.contains "get_payer_and_pgp_customer_by_id" = true →
      (PayerOps.get_payer_raw_objects pid idt pt w).1 =
        .error (.payerRead .PAYER_READ_DB_ERROR false)) ∧
    (∀ (w : World) (pid : String) (idt : Option String) (ptv : String),
      ptv ≠ PayerType.MARKETPLACE →
      w.failsOn.contains "get_stripe_customer" = true →
      (LegacyPayerOps.get_payer_raw_objects pid idt (some ptv) w).1 =
        .error (.payerRead .PAYER_READ_DB_ERROR false)) := by
  refine ⟨?_, ?_, ?_, ?_, ?_⟩
  · intro w dd pt h
    rw [has_existing_payer_run]
    simp only [h, if_true]
  · intro w dd pt c pc code ds dpm h
    rw [PayerOps_create_payer_raw_objects_run]
    simp only [h, if_true]
  · intro w dd pt c pc code ds dpm h
    unfold LegacyPayerOps.create_payer_raw_objects
    rw [tryCatchData_apply, M_bind_apply, generate_object_uuid_apply]
    dsimp only
    rw [M_bind_apply, tryCatchData_apply, insert_payer_run]
    simp only [h, if_true]
    rfl
  · intro w pid idt pt h
    unfold PayerOps.get_payer_raw_objects
    rw [M_bind_apply, tryCatchData_apply, M_bind_apply,
      get_payer_and_pgp_customer_by_id_run]
    simp only [h, if_true]
    rfl
  · intro w pid idt ptv hm h
    unfold LegacyPayerOps.get_payer_raw_objects
    rw [M_bind_apply, tryCatchData_apply]
    dsimp only
    rw [if_pos hm, M_bind_apply, get_stripe_customer_run]
    simp only [h, if_true]
    rfl

/-- Witness for claim C5's theorem: all five handler paths exercised with a
`DataError` at concrete worlds. -/
theorem repository_dataerror_retryable_flags_witness :
    (PayerClient.has_existing_payer "77" "store"
      { wBase with failsOn := ["get_payer_by_dd_payer_id_and_payer_type"] }).1 =
      .error (.payerCreation .PAYER_READ_DB_ERROR true) ∧
    (PayerOps.create_payer_raw_objects "77" "marketplace" "US" "cus_B" "stripe"
      none none { wBase with failsOn := ["insert_payer_and_pgp_customer"] }).1 =
      .error .unboundLocal ∧
    (LegacyPayerOps.create_payer_raw_objects "77" "store" "US" "cus_B" "stripe"
      none none { wBase with failsOn := ["insert_payer"] }).1 =
      .error .unboundLocal ∧
    (PayerOps.get_payer_raw_objects "x" none none
      { wBase with failsOn := ["get_payer_and_pgp_customer_by_id"] }).1 =
      .error (.payerRead .PAYER_READ_DB_ERROR false) ∧
    (LegacyPayerOps.get_payer_raw_objects "cus_A" (some "stripe_customer_id")
      (some "store") { wBase with failsOn := ["get_stripe_customer"] }).1 =
      .error (.payerRead .PAYER_READ_DB_ERROR false) :=
  ⟨repository_dataerror_retryable_flags.1 _ "77" "store" (by decide),
   repository_dataerror_retryable_flags.2.1 _ "77" "marketplace" "US" "cus_B"
     "stripe" none none (by decide),
   repository_dataerror_retryable_flags.2.2.1 _ "77" "store" "US" "cus_B"
     "stripe" none none (by decide),
   repository_dataerror_retryable_flags.2.2.2.1 _ "x" none none (by decide),
   repository_dataerror_retryable_flags.2.2.2.2 _ "cus_A"
     (some "stripe_customer_id") "store" (by decide) (by decide)⟩

/-- Claim C6: when a payer with the same `dd_payer_id` and `payer_type`
already exists, `has_existing_payer` only logs the duplicate (the raise is
commented out): `create_payer_impl` raises no `ALREADY_EXIST` error,
succeeds, and creates a second payer row with the same `dd_payer_id` and
`payer_type`. -/
theorem create_payer_duplicate_not_rejected :
    ∀ (w : World) (dd em ctry : String) (ds : Option String),
      w.failsOn = [] →
      (∃ p ∈ w.payers, p.dd_payer_id = dd ∧ p.payer_type = "marketplace") →
      (∃ pay, (create_payer_impl dd "marketplace" em ctry ds w).1 = .ok pay) ∧
      (∀ rt, (create_payer_impl dd "marketplace" em ctry ds w).1 ≠
        .error (.payerCreation .PAYER_CREATE_PAYER_ALREADY_EXIST rt)) ∧
      ((create_payer_impl dd "marketplace" em ctry ds w).2.payers.filter
          (fun p => p.dd_payer_id == dd && p.payer_type == "marketplace")).length =
        (w.payers.filter
          (fun p => p.dd_payer_id == dd && p.payer_type == "marketplace")).length
          + 1 ∧
      2 ≤ ((create_payer_impl dd "marketplace" em ctry ds w).2.payers.filter
          (fun p => p.dd_payer_id == dd && p.payer_type == "marketplace")).length := by
  intro w dd em ctry ds hf hex
  have hc : ∀ n : String, w.failsOn.contains n = false := by
    intro n
    rw [hf]
    rfl
  have hrun : create_payer_impl dd "marketplace" em ctry ds w =
      (.ok (RawPayer.to_payer
        { payer_entity := some
            { id := "uuid_" ++ toString w.nextUuid, payer_type := "marketplace",
              dd_payer_id := dd,
              legacy_stripe_customer_id := "cus_" ++ toString w.gatewaySeq,
              country := ctry, description := ds },
          pgp_customer_entity := some
            { id := "uuid_" ++ toString (w.nextUuid + 1),
              payer_id := "uuid_" ++ toString w.nextUuid, pgp_code := "stripe",
              pgp_resource_id := "cus_" ++ toString w.gatewaySeq,
              default_payment_method_id := none },
          stripe_customer_entity := none }),
       { w with
          payers := w.payers ++
            [{ id := "uuid_" ++ toString w.nextUuid,
               payer_type := "marketplace", dd_payer_id := dd,
               legacy_stripe_customer_id := "cus_" ++ toString w.gatewaySeq,
               country := ctry, description := ds }],
          pgp_customers := w.pgp_customers ++
            [{ id := "uuid_" ++ toString (w.nextUuid + 1),
               payer_id := "uuid_" ++ toString w.nextUuid,
               pgp_code := "stripe",
               pgp_resource_id := "cus_" ++ toString w.gatewaySeq,
               default_payment_method_id := none }],
          nextUuid := w.nextUuid + 1 + 1,
          gatewaySeq := w.gatewaySeq + 1,
          events := ((w.events ++ [.dbRead "payers"]) ++
            [.gatewayCall "create_customer"]) ++
            [.dbWrite "payers", .dbWrite "pgp_customers"] }) := by
    unfold create_payer_impl
    rw [M_bind_apply, has_existing_payer_run]
    simp only [hc, Bool.false_eq_true, if_false]
    rw [M_bind_apply, pgp_create_customer_run]
    simp only [hc, Bool.false_eq_true, if_false]
    unfold PayerClient.create_payer_raw_objects
    rw [if_pos (by decide)]
    rw [M_bind_apply, PayerOps_create_payer_raw_objects_run]
    simp only [hc, Bool.false_eq_true, if_false]
    rfl
  refine ⟨⟨_, by rw [hrun]⟩, ?_, ?_, ?_⟩
  · intro rt
    rw [hrun]
    simp
  · rw [hrun]
    simp [List.filter_append]
  · rw [hrun]
    obtain ⟨p, hp, hdd, hpt⟩ := hex
    have hmem : p ∈ w.payers.filter
        (fun q => q.dd_payer_id == dd && q.payer_type == "marketplace") := by
      rw [List.mem_filter]
      exact ⟨hp, by simp [hdd, hpt]⟩
    have hlen : 1 ≤ (w.payers.filter
        (fun q => q.dd_payer_id == dd && q.payer_type == "marketplace")).length :=
      List.length_pos_of_mem hmem
    simp only [List.filter_append, List.length_append]
    have : (List.filter
        (fun q => q.dd_payer_id == dd && q.payer_type == "marketplace")
        [({ id := "uuid_" ++ toString w.nextUuid, payer_type := "marketplace",
            dd_payer_id := dd,
            legacy_stripe_customer_id := "cus_" ++ toString w.gatewaySeq,
            country := ctry, description := ds } : PayerRow)]).length = 1 := by
      simp
    omega

/-- Witness for claim C6's theorem: a concrete world already holding a payer
with `dd_payer_id = "123"` and `payer_type = "marketplace"`. -/
theorem create_payer_duplicate_not_rejected_witness :
    (∃ pay, (create_payer_impl "123" "marketplace" "e" "US" none wDup).1 =
      .ok pay) ∧
    2 ≤ ((create_payer_impl "123" "marketplace" "e" "US" none wDup).2.payers.filter
      (fun p => p.dd_payer_id == "123" && p.payer_type == "marketplace")).length :=
  ⟨(create_payer_duplicate_not_rejected wDup "123" "e" "US" none rfl
      ⟨pDup, by decide, rfl, rfl⟩).1,
   (create_payer_duplicate_not_rejected wDup "123" "e" "US" none rfl
      ⟨pDup, by decide, rfl, rfl⟩).2.2.2⟩

/-- Full run equation for `LegacyPayerOps.get_payer_raw_objects` when a
non-marketplace `payer_type` is supplied: one stripe_customer read, one
payers read, then success exactly when the stripe_customer row was found. -/
theorem LegacyPayerOps_get_payer_raw_objects_run (pid : String)
    (idt : Option String) (ptv : String) (hm : ptv ≠ PayerType.MARKETPLACE)
    (w : World) :
    LegacyPayerOps.get_payer_raw_objects pid idt (some ptv) w =
      (let w1 : World :=
        { w with events := w.events ++ [.dbRead "stripe_customer"] }
      let w2 : World := { w1 with events := w1.events ++ [.dbRead "payers"] }
      if w.failsOn.contains "get_stripe_customer" = true then
        (.error (.payerRead .PAYER_READ_DB_ERROR false), w1)
      else
        let sc := w.stripe_customers.find? fun c =>
          match (if idt == some PayerIdType.STRIPE_CUSTOMER_ID then
              GetStripeCustomerInput.byStripeId pid
            else
              GetStripeCustomerInput.bySerialId pid) with
          | .byStripeId s => c.stripe_id == s
          | .bySerialId x => toString c.id == x
        if w.failsOn.contains "get_payer_by_id" = true then
          (.error (.payerRead .PAYER_READ_DB_ERROR false), w2)
        else
          match sc with
          | some scv =>
            (.ok { payer_entity :=
                     w.payers.find? fun p => p.legacy_stripe_customer_id == pid,
                   pgp_customer_entity := none,
                   stripe_customer_entity := some scv }, w2)
          | none => (.error (.payerRead .PAYER_READ_NOT_FOUND false), w2)) := by
  unfold LegacyPayerOps.get_payer_raw_objects
  rw [M_bind_apply, tryCatchData_apply]
  dsimp only
  rw [if_pos hm, M_bind_apply, get_stripe_customer_run]
  by_cases hf1 : w.failsOn.contains "get_stripe_customer" = true
  · simp only [hf1, if_true]
    rfl
  · have hb1 : w.failsOn.contains "get_stripe_customer" = false := by
      simpa using hf1
    simp only [hb1, Bool.false_eq_true, if_false]
    rw [M_bind_apply, get_payer_by_id_run]
    by_cases hf2 : w.failsOn.contains "get_payer_by_id" = true
    · simp only [hf2, if_true]
      rfl
    · have hb2 : w.failsOn.contains "get_payer_by_id" = false := by
        simpa using hf2
      simp only [hb2, Bool.false_eq_true, if_false]
      rcases hsc : w.stripe_customers.find? (fun c =>
        match (if idt == some PayerIdType.STRIPE_CUSTOMER_ID then
            GetStripeCustomerInput.byStripeId pid
          else
            GetStripeCustomerInput.bySerialId pid) with
        | .byStripeId s => c.stripe_id == s
        | .bySerialId x => toString c.id == x) with _ | scv
      · simp only [hsc]
        rfl
      · simp only [hsc]
        rfl

/-- Claim C8: with `payer_type` unspecified or `"marketplace"`, the
legacy-schema `get_payer_raw_objects` raises
`PayerReadError(PAYER_READ_NOT_FOUND, retryable=False)` without issuing any
database query and with the world untouched — even when a matching record
exists in either schema (the world is arbitrary); and a legacy lookup
succeeds only when a non-marketplace `payer_type` was supplied and a
stripe_customer row was found. -/
theorem legacy_get_payer_requires_nonmarketplace :
    (∀ (w : World) (pid : String) (idt pt : Option String),
      (pt = none ∨ pt = some PayerType.MARKETPLACE) →
      LegacyPayerOps.get_payer_raw_objects pid idt pt w =
        (.error (.payerRead .PAYER_READ_NOT_FOUND false), w)) ∧
    (∀ (w : World) (pid : String) (idt pt : Option String) (r : RawPayer)
        (w' : World),
      LegacyPayerOps.get_payer_raw_objects pid idt pt w = (.ok r, w') →
      ∃ ptv, pt = some ptv ∧ ptv ≠ PayerType.MARKETPLACE ∧
        r.stripe_customer_entity.isSome = true) := by
  have hmkt : ∀ (w : World) (pid : String) (idt : Option String),
      LegacyPayerOps.get_payer_raw_objects pid idt
        (some PayerType.MARKETPLACE) w =
        (.error (.payerRead .PAYER_READ_NOT_FOUND false), w) := by
    intro w pid idt
    unfold LegacyPayerOps.get_payer_raw_objects
    rw [M_bind_apply, tryCatchData_apply]
    dsimp only
    rw [if_neg (fun hq => hq rfl)]
    rfl
  constructor
  · intro w pid idt pt h
    rcases h with h | h
    · subst h
      rfl
    · subst h
      exact hmkt w pid idt
  · intro w pid idt pt r w' h
    rcases pt with _ | ptv
    · have heq : LegacyPayerOps.get_payer_raw_objects pid idt none w =
          (.error (.payerRead .PAYER_READ_NOT_FOUND false), w) := rfl
      rw [heq] at h
      simp at h
    · by_cases hm : ptv = PayerType.MARKETPLACE
      · subst hm
        rw [hmkt w pid idt] at h
        simp at h
      · refine ⟨ptv, rfl, hm, ?_⟩
        rw [LegacyPayerOps_get_payer_raw_objects_run pid idt ptv hm w] at h
        by_cases hf1 : w.failsOn.contains "get_stripe_customer" = true
        · simp only [hf1, if_true] at h
          simp at h
        · have hb1 : w.failsOn.contains "get_stripe_customer" = false := by
            simpa using hf1
          simp only [hb1, Bool.false_eq_true, if_false] at h
          by_cases hf2 : w.failsOn.contains "get_payer_by_id" = true
          · simp only [hf2, if_true] at h
            simp at h
          · have hb2 : w.failsOn.contains "get_payer_by_id" = false := by
              simpa using hf2
            simp only [hb2, Bool.false_eq_true, if_false] at h
            rcases hsc : w.stripe_customers.find? (fun c =>
              match (if idt == some PayerIdType.STRIPE_CUSTOMER_ID then
                  GetStripeCustomerInput.byStripeId pid
                else
                  GetStripeCustomerInput.bySerialId pid) with
              | .byStripeId s => c.stripe_id == s
              | .bySerialId x => toString c.id == x) with _ | scv
            · rw [hsc] at h
              simp at h
            · rw [hsc] at h
              injection h with h1 h2
              injection h1 with h3
              rw [← h3]
              rfl

/-- Witness for claim C8's theorem: not-found at a world that does hold a
matching legacy record, for both unspecified and marketplace payer types;
and the success characterization at a fault-free legacy lookup. -/
theorem legacy_get_payer_requires_nonmarketplace_witness :
    LegacyPayerOps.get_payer_raw_objects "cus_A" (some "stripe_customer_id")
        none wBase =
      (.error (.payerRead .PAYER_READ_NOT_FOUND false), wBase) ∧
    LegacyPayerOps.get_payer_raw_objects "cus_A" (some "stripe_customer_id")
        (some "marketplace") wBase =
      (.error (.payerRead .PAYER_READ_NOT_FOUND false), wBase) ∧
    ∃ ptv, (some "store" : Option String) = some ptv ∧
      ptv ≠ PayerType.MARKETPLACE ∧
      ({ payer_entity := none, pgp_customer_entity := none,
         stripe_customer_entity := some scLegacy } :
        RawPayer).stripe_customer_entity.isSome = true :=
  ⟨legacy_get_payer_requires_nonmarketplace.1 wBase "cus_A"
      (some "stripe_customer_id") none (.inl rfl),
   legacy_get_payer_requires_nonmarketplace.1 wBase "cus_A"
      (some "stripe_customer_id") (some "marketplace") (.inr rfl),
   legacy_get_payer_requires_nonmarketplace.2 wBase "cus_A"
      (some "stripe_customer_id") (some "store")
      { payer_entity := none, pgp_customer_entity := none,
        stripe_customer_entity := some scLegacy }
      { wBase with events := [.dbRead "stripe_customer", .dbRead "payers"] }
      (by decide)⟩

/-- Counterexample to claim C3 as stated: in
`LegacyPayerOps.create_payer_raw_objects` the Payer insert and the
StripeCustomer insert are two independent repository calls, not one
transaction — when the stripe_customer insert raises a `DataError`, the
operation fails yet the already-inserted payer row stays visible. -/
theorem ledger_atomic_pair_counterexample :
    (LegacyPayerOps.create_payer_raw_objects "77" "store" "US" "cus_B"
      "stripe" none none
      { wBase with stripe_customers := [],
                   failsOn := ["insert_stripe_customer"] }).1 =
      .error (.payerCreation .PAYER_CREATE_INVALID_DATA true) ∧
    (LegacyPayerOps.create_payer_raw_objects "77" "store" "US" "cus_B"
      "stripe" none none
      { wBase with stripe_customers := [],
                   failsOn := ["insert_stripe_customer"] }).2.payers =
      [{ id := "uuid_0", payer_type := "store", dd_payer_id := "77",
         legacy_stripe_customer_id := "cus_B", country := "US",
         description := none }] := by
  refine ⟨by decide, by decide⟩

/-- Claim C3 (amended): each single-row write is its own transaction with
rollback — `insert_payer_and_pgp_customer` (the Payer + PgpCustomer pair) is
one transaction spanning both inserts, and `insert_pgp_payment_method` is a
single transaction — but the Payer + legacy StripeCustomer pair in
`LegacyPayerOps.create_payer_raw_objects` is composed as two independent
single-row calls: when the stripe_customer insert fails, the operation
raises `PayerCreationError` while the already-inserted payer row remains
visible. -/
theorem ledger_write_atomicity :
    (∀ (w : World) (p : PayerRow) (c : PgpCustomerRow),
      (w.failsOn.contains "insert_payer_and_pgp_customer" = true →
        (insert_payer_and_pgp_customer p c w).1 = .error .dataError ∧
        TablesEq w (insert_payer_and_pgp_customer p c w).2) ∧
      (w.failsOn.contains "insert_payer_and_pgp_customer" = false →
        (insert_payer_and_pgp_customer p c w).2.payers = w.payers ++ [p] ∧
        (insert_payer_and_pgp_customer p c w).2.pgp_customers =
          w.pgp_customers ++ [c])) ∧
    (∀ (w : World) (r : PgpPaymentMethodRow),
      (w.failsOn.contains "insert_pgp_payment_method" = true →
        (insert_pgp_payment_method r w).1 = .error .dataError ∧
        TablesEq w (insert_pgp_payment_method r w).2) ∧
      (w.failsOn.contains "insert_pgp_payment_method" = false →
        (insert_pgp_payment_method r w).2.pgp_payment_methods =
          w.pgp_payment_methods ++ [r])) ∧
    (∀ (w : World) (dd pt c pc code : String) (ds dpm : Option String),
      w.failsOn.contains "insert_payer" = false →
      w.failsOn.contains "get_stripe_customer" = false →
      w.failsOn.contains "insert_stripe_customer" = true →
      w.stripe_customers.find? (fun sc => sc.stripe_id == pc) = none →
      pyIntOk dd = true →
      (LegacyPayerOps.create_payer_raw_objects dd pt c pc code ds dpm w).1 =
        .error (.payerCreation .PAYER_CREATE_INVALID_DATA true) ∧
      (LegacyPayerOps.create_payer_raw_objects dd pt c pc code ds dpm w).2.payers =
        w.payers ++
          [{ id := "uuid_" ++ toString w.nextUuid, payer_type := pt,
             dd_payer_id := dd, legacy_stripe_customer_id := pc, country := c,
             description := ds }]) := by
  refine ⟨?_, ?_, ?_⟩
  · intro w p c
    constructor
    · intro h
      have hm : "insert_payer_and_pgp_customer" ∈ w.failsOn := by simpa using h
      rw [insert_payer_and_pgp_customer_run]
      simp [hm, TablesEq]
    · intro h
      have hm : "insert_payer_and_pgp_customer" ∉ w.failsOn := by simpa using h
      rw [insert_payer_and_pgp_customer_run]
      simp [hm]
  · intro w r
    constructor
    · intro h
      have hm : "insert_pgp_payment_method" ∈ w.failsOn := by simpa using h
      rw [insert_pgp_payment_method_run]
      simp [hm, TablesEq]
    · intro h
      have hm : "insert_pgp_payment_method" ∉ w.failsOn := by simpa using h
      rw [insert_pgp_payment_method_run]
      simp [hm]
  · intro w dd pt c pc code ds dpm h1 h2 h3 hfind hok
    have hrun : LegacyPayerOps.create_payer_raw_objects dd pt c pc code ds dpm w =
        (.error (.payerCreation .PAYER_CREATE_INVALID_DATA true),
         { w with
            payers := w.payers ++
              [{ id := "uuid_" ++ toString w.nextUuid, payer_type := pt,
                 dd_payer_id := dd, legacy_stripe_customer_id := pc,
                 country := c, description := ds }],
            nextUuid := w.nextUuid + 1,
            events := ((w.events ++ [.dbWrite "payers"]) ++
              [.dbRead "stripe_customer"]) ++ [.dbWrite "stripe_customer"] }) := by
      unfold LegacyPayerOps.create_payer_raw_objects
      rw [tryCatchData_apply, M_bind_apply, generate_object_uuid_apply]
      dsimp only
      rw [M_bind_apply, tryCatchData_apply, insert_payer_run]
      simp only [h1, Bool.false_eq_true, if_false]
      rw [M_bind_apply, get_stripe_customer_run]
      simp only [h2, Bool.false_eq_true, if_false, hfind]
      unfold pyInt
      simp only [hok, if_true, M_pure_bind]
      rw [M_bind_apply]
      rw [insert_stripe_customer_run]
      simp only [h3, if_true]
      rfl
    exact ⟨by rw [hrun], by rw [hrun]⟩

/-- Witness for claim C3's theorem: the atomic pair insert at a fault world
and a fault-free world, the single-transaction pgp_payment_method insert,
and the visible partial write of the legacy create at a concrete world. -/
theorem ledger_write_atomicity_witness :
    ((insert_payer_and_pgp_customer pDup
      { id := "uuid_y", payer_id := "uuid_x", pgp_code := "stripe",
        pgp_resource_id := "cus_old", default_payment_method_id := none }
      { wBase with failsOn := ["insert_payer_and_pgp_customer"] }).1 =
        .error .dataError ∧
      TablesEq { wBase with failsOn := ["insert_payer_and_pgp_customer"] }
        (insert_payer_and_pgp_customer pDup
          { id := "uuid_y", payer_id := "uuid_x", pgp_code := "stripe",
            pgp_resource_id := "cus_old", default_payment_method_id := none }
          { wBase with failsOn := ["insert_payer_and_pgp_customer"] }).2) ∧
    ((insert_pgp_payment_method { id := "uuid_z", pgp_resource_id := "pm_1" }
        wBase).2.pgp_payment_methods = [{ id := "uuid_z", pgp_resource_id := "pm_1" }]) ∧
    ((LegacyPayerOps.create_payer_raw_objects "77" "store" "US" "cus_B"
      "stripe" none none
      { wBase with stripe_customers := [],
                   failsOn := ["insert_stripe_customer"] }).2.payers =
      [{ id := "uuid_0", payer_type := "store", dd_payer_id := "77",
         legacy_stripe_customer_id := "cus_B", country := "US",
         description := none }]) :=
  ⟨(ledger_write_atomicity.1 _ pDup _).1 (by decide),
   by
    have := (ledger_write_atomicity.2.1 wBase
      { id := "uuid_z", pgp_resource_id := "pm_1" }).2 (by decide)
    simpa using this,
   by
    have := (ledger_write_atomicity.2.2
      { wBase with stripe_customers := [],
                   failsOn := ["insert_stripe_customer"] }
      "77" "store" "US" "cus_B" "stripe" none none (by decide) (by decide)
      (by decide) (by decide) (by decide)).2
    simpa using this⟩

/-- Counterexample to claim C9 as stated: under Python reference semantics,
`PayerOps.update_payer_default_payment_method` assigns into the aggregate
the caller passed — after the call the caller's reference (heap slot 0)
holds a different aggregate value, and the returned reference is the very
same one, not a new aggregate. -/
theorem raw_payer_update_mutates_in_place_counterexample :
    (PayerOps.update_payer_default_payment_method_obj
        [{ payer_entity := none,
           pgp_customer_entity := some
             { id := "pgpc_1", payer_id := "uuid_9", pgp_code := "stripe",
               pgp_resource_id := "cus_A", default_payment_method_id := none },
           stripe_customer_entity := none }] 0 "pm_1"
        { wBase with pgp_customers :=
            [{ id := "pgpc_1", payer_id := "uuid_9", pgp_code := "stripe",
               pgp_resource_id := "cus_A",
               default_payment_method_id := none }] }).1 =
      .ok ([{ payer_entity := none,
              pgp_customer_entity := some
                { id := "pgpc_1", payer_id := "uuid_9", pgp_code := "stripe",
                  pgp_resource_id := "cus_A",
                  default_payment_method_id := some "pm_1" },
              stripe_customer_entity := none }], 0) ∧
    ([{ payer_entity := none,
        pgp_customer_entity := some
          { id := "pgpc_1", payer_id := "uuid_9", pgp_code := "stripe",
            pgp_resource_id := "cus_A",
            default_payment_method_id := some "pm_1" },
        stripe_customer_entity := none }] : List RawPayer)[0]? ≠
      some { payer_entity := none,
             pgp_customer_entity := some
               { id := "pgpc_1", payer_id := "uuid_9", pgp_code := "stripe",
                 pgp_resource_id := "cus_A",
                 default_payment_method_id := none },
             stripe_customer_entity := none } := by
  refine ⟨by decide, by decide⟩

/-- Claim C9 (amended): the entity snapshots themselves are replaced by new
row values, but `PayerOps.update_payer_default_payment_method` does not
produce a new aggregate — it assigns the updated entity into a field of the
aggregate passed in (the heap is updated at the caller's reference) and
returns that same reference. -/
theorem raw_payer_update_mutates_in_place :
    ∀ (heap : List RawPayer) (ref : Nat) (rp : RawPayer)
      (pce : PgpCustomerRow) (w : World) (dpm : String),
      heap[ref]? = some rp →
      rp.pgp_customer_entity = some pce →
      w.failsOn.contains "update_pgp_customer" = false →
      PayerOps.update_payer_default_payment_method_obj heap ref dpm w =
        (.ok (heap.set ref
          { rp with pgp_customer_entity :=
              ((w.pgp_customers.map fun c =>
                if c.id == pce.id then
                  { c with default_payment_method_id := some dpm }
                else c).find? fun c => c.id == pce.id) }, ref),
         { w with
            pgp_customers := w.pgp_customers.map fun c =>
              if c.id == pce.id then
                { c with default_payment_method_id := some dpm }
              else c,
            events := w.events ++ [.dbWrite "pgp_customers"] }) := by
  intro heap ref rp pce w dpm hget hpce hfault
  unfold PayerOps.update_payer_default_payment_method_obj
  rw [hget]
  dsimp only
  rw [hpce]
  dsimp only
  rw [M_bind_apply, update_pgp_customer_run]
  simp only [hfault, Bool.false_eq_true, if_false]
  rfl

/-- Witness for claim C9's theorem at the concrete heap and world of the
counterexample scenario. -/
theorem raw_payer_update_mutates_in_place_witness :
    PayerOps.update_payer_default_payment_method_obj
        [{ payer_entity := none,
           pgp_customer_entity := some
             { id := "pgpc_1", payer_id := "uuid_9", pgp_code := "stripe",
               pgp_resource_id := "cus_A", default_payment_method_id := none },
           stripe_customer_entity := none }] 0 "pm_1"
        { wBase with pgp_customers :=
            [{ id := "pgpc_1", payer_id := "uuid_9", pgp_code := "stripe",
               pgp_resource_id := "cus_A",
               default_payment_method_id := none }] } =
      (.ok (List.set
        [{ payer_entity := none,
           pgp_customer_entity := some
             { id := "pgpc_1", payer_id := "uuid_9", pgp_code := "stripe",
               pgp_resource_id := "cus_A", default_payment_method_id := none },
           stripe_customer_entity := none }] 0
        { payer_entity := none,
          pgp_customer_entity :=
            ((({ wBase with pgp_customers :=
                [{ id := "pgpc_1", payer_id := "uuid_9", pgp_code := "stripe",
                   pgp_resource_id := "cus_A",
                   default_payment_method_id := none }] } : World).pgp_customers.map
              fun c =>
                if c.id == "pgpc_1" then
                  { c with default_payment_method_id := some "pm_1" }
                else c).find? fun c => c.id == "pgpc_1"),
          stripe_customer_entity := none }, 0),
       { ({ wBase with pgp_customers :=
            [{ id := "pgpc_1", payer_id := "uuid_9", pgp_code := "stripe",
               pgp_resource_id := "cus_A",
               default_payment_method_id := none }] } : World) with
          pgp_customers :=
            (({ wBase with pgp_customers :=
                [{ id := "pgpc_1", payer_id := "uuid_9", pgp_code := "stripe",
                   pgp_resource_id := "cus_A",
                   default_payment_method_id := none }] } : World).pgp_customers.map
              fun c =>
                if c.id == "pgpc_1" then
                  { c with default_payment_method_id := some "pm_1" }
                else c),
          events := ({ wBase with pgp_customers :=
            [{ id := "pgpc_1", payer_id := "uuid_9", pgp_code := "stripe",
               pgp_resource_id := "cus_A",
               default_payment_method_id := none }] } : World).events ++
            [.dbWrite "pgp_customers"] }) :=
  raw_payer_update_mutates_in_place
    [{ payer_entity := none,
       pgp_customer_entity := some
         { id := "pgpc_1", payer_id := "uuid_9", pgp_code := "stripe",
           pgp_resource_id := "cus_A", default_payment_method_id := none },
       stripe_customer_entity := none }] 0
    { payer_entity := none,
      pgp_customer_entity := some
        { id := "pgpc_1", payer_id := "uuid_9", pgp_code := "stripe",
          pgp_resource_id := "cus_A", default_payment_method_id := none },
      stripe_customer_entity := none }
    { id := "pgpc_1", payer_id := "uuid_9", pgp_code := "stripe",
      pgp_resource_id := "cus_A", default_payment_method_id := none }
    { wBase with pgp_customers :=
        [{ id := "pgpc_1", payer_id := "uuid_9", pgp_code := "stripe",
           pgp_resource_id := "cus_A", default_payment_method_id := none }] }
    "pm_1" (by decide) rfl (by decide)

/-- Counterexample to claim C1 as stated: for a payer existing only in the
legacy schema, resolving by `dd_consumer_id` selects the current-schema
strategy, which raises `PayerReadError(PAYER_READ_NOT_FOUND)` — the update
never runs and no current-schema Payer/PgpCustomer mirror is created at all
(zero times, not exactly once). -/
theorem legacy_update_lazy_create_counterexample :
    (update_payer_impl "77" "pm_1" "US" (some "dd_consumer_id") (some "store")
      wBase).1 = .error (.payerRead .PAYER_READ_NOT_FOUND false) ∧
    (update_payer_impl "77" "pm_1" "US" (some "dd_consumer_id") (some "store")
      wBase).2.payers = [] := by
  refine ⟨by decide, by decide⟩

/-- Claim C1 (amended): for a payer that exists only in the legacy schema,
resolving it by `stripe_customer_id` (with a non-marketplace `payer_type`)
and calling `update_default_payment_method` creates the current-schema
Payer mirror exactly once even if the update is retried.  First conjunct
(idempotence of the lazy create, over every world): when a current-schema
payer for the legacy customer already exists, `lazy_create_payer` returns
it after a single read and skips creation entirely.  Remaining conjuncts:
in the concrete legacy-only scenario, the first update succeeds and leaves
exactly one mirror payer row, and a retried identical update succeeds and
still leaves exactly one. -/
theorem legacy_update_lazy_creates_mirror_once :
    (∀ (w : World) (dd c pc code pt : String) (dpm ds : Option String)
        (pe : PayerRow),
      w.failsOn.contains "get_payer_by_id" = false →
      w.payers.find? (fun p => p.legacy_stripe_customer_id == pc) = some pe →
      PayerClient.lazy_create_payer dd c pc code pt dpm ds w =
        (.ok { payer_entity := some pe, pgp_customer_entity := none,
               stripe_customer_entity := none },
         { w with events := w.events ++ [.dbRead "payers"] })) ∧
    (∃ pay, (update_payer_impl "cus_A" "pm_1" "US" (some "stripe_customer_id")
      (some "store") wBase).1 = .ok pay) ∧
    ((update_payer_impl "cus_A" "pm_1" "US" (some "stripe_customer_id")
      (some "store") wBase).2.payers.filter
        (fun p => p.legacy_stripe_customer_id == "cus_A")).length = 1 ∧
    (∃ pay, (update_payer_impl "cus_A" "pm_1" "US" (some "stripe_customer_id")
      (some "store")
      (update_payer_impl "cus_A" "pm_1" "US" (some "stripe_customer_id")
        (some "store") wBase).2).1 = .ok pay) ∧
    ((update_payer_impl "cus_A" "pm_1" "US" (some "stripe_customer_id")
      (some "store")
      (update_payer_impl "cus_A" "pm_1" "US" (some "stripe_customer_id")
        (some "store") wBase).2).2.payers.filter
        (fun p => p.legacy_stripe_customer_id == "cus_A")).length = 1 := by
  refine ⟨?_,
    ⟨{ id := some "uuid_0", payer_type := some "store", country := some "US",
       dd_payer_id := some "77", pgp_customer_id := some "cus_A" }, by decide⟩,
    by decide,
    ⟨{ id := some "uuid_0", payer_type := some "store", country := some "US",
       dd_payer_id := some "77", pgp_customer_id := some "cus_A" }, by decide⟩,
    by decide⟩
  intro w dd c pc code pt dpm ds pe hfault hfind
  unfold PayerClient.lazy_create_payer
  rw [M_bind_apply, get_payer_by_id_run]
  simp only [hfault, Bool.false_eq_true, if_false]
  rw [hfind]
  rfl

/-- Witness for claim C1's theorem: the lazy-create skip instantiated at a
world that already holds the mirror payer. -/
theorem legacy_update_lazy_creates_mirror_once_witness :
    PayerClient.lazy_create_payer "9" "US" "cus_old" "stripe" "store" none
        none wDup =
      (.ok { payer_entity := some pDup, pgp_customer_entity := none,
             stripe_customer_entity := none },
       { wDup with events := wDup.events ++ [.dbRead "payers"] }) :=
  legacy_update_lazy_creates_mirror_once.1 wDup "9" "US" "cus_old" "stripe"
    "store" none none pDup (by decide) (by decide)
